import Mathlib

/-!
Verification of the VoiceForge TTS engine core
(`backend/app/core/tts_engine.py`) against its natural-language
specification.

The engine is shallowly embedded: the mutable engine object becomes an
explicit `EngineState`; the torch / qwen_tts / filesystem backend becomes
an oracle record `Backend`; each Python method becomes a Lean function
from state to result, next state, and a trace of observable events
(backend load calls, backend generation calls, slot evictions, logged
warnings, fallback retries).  Python exceptions become `Except PyError`
values carrying the Python exception class and message.
-/

namespace VoiceForge

/-- Execution devices the engine can select ("mps", "cuda:0", "cpu"). -/
inductive Device
  | mps
  | cuda
  | cpu
deriving DecidableEq

/-- Torch numeric precisions used by the engine. -/
inductive Dtype
  | float32
  | bfloat16
deriving DecidableEq

/-- The five model variants of the `ModelType` Python enum. -/
inductive ModelType
  | custom_voice
  | voice_design
  | base
  | custom_voice_small
  | base_small
deriving DecidableEq

/-- Enum declaration order, as iterated by `for model_type in ModelType`. -/
def ModelType.all : List ModelType :=
  [ModelType.custom_voice, ModelType.voice_design, ModelType.base,
   ModelType.custom_voice_small, ModelType.base_small]

/-- The `.value` string of each enum member. -/
def modelTypeValue : ModelType → String
  | ModelType.custom_voice => "custom_voice"
  | ModelType.voice_design => "voice_design"
  | ModelType.base => "base"
  | ModelType.custom_voice_small => "custom_voice_small"
  | ModelType.base_small => "base_small"

/-- HuggingFace model identifiers (the `MODELS` class dict). -/
def MODELS : ModelType → String
  | ModelType.custom_voice => "Qwen/Qwen3-TTS-12Hz-1.7B-CustomVoice"
  | ModelType.voice_design => "Qwen/Qwen3-TTS-12Hz-1.7B-VoiceDesign"
  | ModelType.base => "Qwen/Qwen3-TTS-12Hz-1.7B-Base"
  | ModelType.custom_voice_small => "Qwen/Qwen3-TTS-12Hz-0.6B-CustomVoice"
  | ModelType.base_small => "Qwen/Qwen3-TTS-12Hz-0.6B-Base"

/-- Local model directory names (the `LOCAL_MODEL_NAMES` class dict). -/
def LOCAL_MODEL_NAMES : ModelType → String
  | ModelType.custom_voice => "Qwen3-TTS-12Hz-1.7B-CustomVoice"
  | ModelType.voice_design => "Qwen3-TTS-12Hz-1.7B-VoiceDesign"
  | ModelType.base => "Qwen3-TTS-12Hz-1.7B-Base"
  | ModelType.custom_voice_small => "Qwen3-TTS-12Hz-0.6B-CustomVoice"
  | ModelType.base_small => "Qwen3-TTS-12Hz-0.6B-Base"

/-- Attention implementation hints passed to the backend loader. -/
inductive AttnImpl
  | flash_attention_2
  | sdpa
deriving DecidableEq

/-- Opaque handle of a loaded backend model instance. -/
abbrev Model := Nat

/-- Opaque voice-clone prompt object returned by the backend. -/
abbrev ClonePrompt := Nat

/-- Raw generation output: one waveform plus its sample rate
(the Python pair `wavs[0], sr`). -/
structure Audio where
  wav : List Int
  sr : Nat
deriving DecidableEq

/-- Encoded audio, the result of `_audio_to_bytes`. -/
structure AudioBytes where
  wav : List Int
  sr : Nat
deriving DecidableEq

/-- Embedding of `_audio_to_bytes`: a pure WAV framing of the samples. -/
def audio_to_bytes (a : Audio) : AudioBytes :=
  ⟨a.wav, a.sr⟩

/-- Python exception classes raised by or through the engine.
`OtherError` stands for an exception of some backend-defined class that
the engine re-raises unwrapped. -/
inductive PyExcClass
  | ValueError
  | RuntimeError
  | OtherError
deriving DecidableEq

/-- A raised Python exception: its class and its `str(e)` message. -/
structure PyError where
  cls : PyExcClass
  msg : String
deriving DecidableEq

/-- Decidable equality of `Except` results, for concrete evaluation. -/
instance {ε α : Type} [DecidableEq ε] [DecidableEq α] : DecidableEq (Except ε α) :=
  fun x y =>
    match x, y with
    | Except.error a, Except.error b =>
        if h : a = b then isTrue (by rw [h]) else
          isFalse (by intro hc; cases hc; exact h rfl)
    | Except.ok a, Except.ok b =>
        if h : a = b then isTrue (by rw [h]) else
          isFalse (by intro hc; cases hc; exact h rfl)
    | Except.error _, Except.ok _ => isFalse (by intro hc; cases hc)
    | Except.ok _, Except.error _ => isFalse (by intro hc; cases hc)

/-- A preset voice configuration (the `VoicePreset` dataclass). -/
structure VoicePreset where
  speaker : String
  instruct : String
  description : String
deriving DecidableEq

/-- One value per model variant; used for the model slots and the
load-error records of the engine. -/
structure Slots (α : Type) where
  custom_voice : α
  voice_design : α
  base : α
  custom_voice_small : α
  base_small : α
deriving DecidableEq

/-- Read the slot of a variant. -/
def Slots.get (s : Slots α) : ModelType → α
  | ModelType.custom_voice => s.custom_voice
  | ModelType.voice_design => s.voice_design
  | ModelType.base => s.base
  | ModelType.custom_voice_small => s.custom_voice_small
  | ModelType.base_small => s.base_small

/-- Write the slot of a variant. -/
def Slots.set (s : Slots α) : ModelType → α → Slots α
  | ModelType.custom_voice, v => { s with custom_voice := v }
  | ModelType.voice_design, v => { s with voice_design := v }
  | ModelType.base, v => { s with base := v }
  | ModelType.custom_voice_small, v => { s with custom_voice_small := v }
  | ModelType.base_small, v => { s with base_small := v }

/-- Apply a function to every slot. -/
def Slots.map (f : α → β) (s : Slots α) : Slots β :=
  ⟨f s.custom_voice, f s.voice_design, f s.base,
   f s.custom_voice_small, f s.base_small⟩

/-- Constant slots. -/
def Slots.const (v : α) : Slots α :=
  ⟨v, v, v, v, v⟩

/-- Association-list lookup, embedding Python dict read. -/
def dictGet : List (String × α) → String → Option α
  | [], _ => none
  | (k, v) :: rest, key => if k = key then some v else dictGet rest key

/-- Association-list write with Python dict semantics: an existing key
keeps its position, a new key is appended. -/
def dictSet : List (String × α) → String → α → List (String × α)
  | [], key, v => [(key, v)]
  | (k, w) :: rest, key, v =>
      if k = key then (key, v) :: rest else (k, w) :: dictSet rest key v

/-- Key list of a dict, in insertion order. -/
def dictKeys (d : List (String × α)) : List String :=
  d.map Prod.fst

/-- Observable events of one engine operation. -/
inductive Event
  | loadCall (mt : ModelType) (dev : Device) (dt : Dtype) (attn : Option AttnImpl)
  | genCustomVoice (text lang speaker instruct : String)
  | genVoiceDesign (text lang instruct : String)
  | genVoiceClone (text lang : String)
  | createPrompt (refAudio : String) (xVectorOnly : Bool)
  | warn (msg : String)
  | unload (mt : ModelType)
  | retry
deriving DecidableEq

/-- The external world the engine calls into: device availability probes
(`torch.backends.mps` / `torch.cuda`), the optional `flash_attn` import,
the local model directory, the `qwen_tts` backend entry points, and the
`hashlib.md5` digest. -/
structure Backend where
  mpsAvail : Bool
  cudaAvail : Bool
  flashAvail : Bool
  localExists : ModelType → Bool
  modelsDir : String
  loadModel : String → Device → Dtype → Option AttnImpl → Except String Model
  genCustomVoice : Model → String → String → String → String → Except String Audio
  genVoiceDesign : Model → String → String → String → Except String Audio
  genCloneRef : Model → String → String → String → String → Except String Audio
  genClonePrompt : Model → String → String → ClonePrompt → Except String Audio
  makeClonePrompt : Model → String → Option String → Bool → Except String ClonePrompt
  md5hex : String → String

/-- The mutable fields of a `QwenTTSEngine` instance. -/
structure EngineState where
  device : Device
  dtype : Dtype
  models : Slots (Option Model)
  model_load_errors : Slots (Option (Option String))
  clone_prompt_cache : List (String × ClonePrompt)
  use_small_models : Bool
deriving DecidableEq

/-- ASCII lowercasing of a string (Python `str.lower`). -/
def strToLower (s : String) : String :=
  String.mk (s.data.map Char.toLower)

/-- Prefix of a string (Python slicing `s[:n]`). -/
def strTake (s : String) (n : Nat) : String :=
  String.mk (s.data.take n)

/-- Embedding of `_init_device`: the `VOICEFORGE_DEVICE` override, else
probe MPS, then CUDA, else CPU. -/
def init_device (env : Backend) (envDevice : String) : Device × Dtype :=
  if strToLower envDevice = "cpu" then
    (Device.cpu, Dtype.float32)
  else if env.mpsAvail then
    (Device.mps, Dtype.float32)
  else if env.cudaAvail then
    (Device.cuda, Dtype.bfloat16)
  else
    (Device.cpu, Dtype.float32)

/-- Engine state produced by `QwenTTSEngine.__init__`: empty slots, empty
error record, empty prompt cache, device resolved by `_init_device`. -/
def init_state (env : Backend) (envDevice : String) (use_small : Bool) : EngineState :=
  { device := (init_device env envDevice).1
    dtype := (init_device env envDevice).2
    models := Slots.const none
    model_load_errors := Slots.const none
    clone_prompt_cache := []
    use_small_models := use_small }

/-- The static preset records of the engine, in catalog order. -/
def deepMalePreset : VoicePreset :=
  ⟨"Ryan", "Speak in a deep, calm, authoritative tone.",
   "A deep, commanding male voice"⟩

def energeticFemalePreset : VoicePreset :=
  ⟨"Vivian", "Speak with enthusiasm, energy, and excitement.",
   "A vibrant, energetic female voice"⟩

def raspyWizardPreset : VoicePreset :=
  ⟨"Ryan", "Speak like a wise old wizard with a raspy, mysterious voice.",
   "An aged, mystical voice"⟩

def softWhisperPreset : VoicePreset :=
  ⟨"Vivian", "Speak softly and gently, almost whispering.",
   "A soft, intimate whisper"⟩

def newsAnchorPreset : VoicePreset :=
  ⟨"Ryan", "Speak clearly and professionally like a television news anchor.",
   "Professional broadcast voice"⟩

def cheerfulAssistantPreset : VoicePreset :=
  ⟨"Vivian", "Speak in a friendly, helpful, and cheerful manner.",
   "Warm and approachable assistant"⟩

def dramaticNarratorPreset : VoicePreset :=
  ⟨"Ryan", "Speak with dramatic flair, building tension and atmosphere.",
   "Cinematic narrator voice"⟩

def calmMeditationPreset : VoicePreset :=
  ⟨"Vivian", "Speak slowly, calmly, and peacefully, suitable for meditation.",
   "Peaceful, relaxing voice"⟩

/-- The static preset catalog `self.presets`, in insertion order. -/
def presetCatalog : List (String × VoicePreset) :=
  [("Deep Male", deepMalePreset),
   ("Energetic Female", energeticFemalePreset),
   ("Raspy Wizard", raspyWizardPreset),
   ("Soft Whisper", softWhisperPreset),
   ("News Anchor", newsAnchorPreset),
   ("Cheerful Assistant", cheerfulAssistantPreset),
   ("Dramatic Narrator", dramaticNarratorPreset),
   ("Calm Meditation", calmMeditationPreset)]

/-- Attention hint chosen by `_load_model` for the current device:
FlashAttention 2 on CUDA when the import succeeds, SDPA on MPS,
nothing on CPU. -/
def attnFor (env : Backend) (dev : Device) : Option AttnImpl :=
  if dev = Device.cuda then
    if env.flashAvail then some AttnImpl.flash_attention_2 else none
  else if dev = Device.mps then
    some AttnImpl.sdpa
  else
    none

/-- Embedding of `_get_model_id`: local directory when the safetensors
file exists, else the HuggingFace id. -/
def get_model_id (env : Backend) (mt : ModelType) : String :=
  if env.localExists mt then
    env.modelsDir ++ "/" ++ LOCAL_MODEL_NAMES mt
  else
    MODELS mt

/-- Embedding of `_load_model`: one backend load call; on success the
error record for the variant is cleared (set to Python `None`), on
failure the message is recorded and a `RuntimeError` is raised. -/
def load_model (env : Backend) (s : EngineState) (mt : ModelType) :
    Except PyError Model × EngineState × List Event :=
  let model_id := get_model_id env mt
  let attn := attnFor env s.device
  match env.loadModel model_id s.device s.dtype attn with
  | Except.ok m =>
      (Except.ok m,
       { s with model_load_errors := s.model_load_errors.set mt (some none) },
       [Event.loadCall mt s.device s.dtype attn])
  | Except.error e =>
      let msg := "Failed to load " ++ modelTypeValue mt ++ " model: " ++ e
      (Except.error ⟨PyExcClass.RuntimeError, msg⟩,
       { s with model_load_errors := s.model_load_errors.set mt (some (some msg)) },
       [Event.loadCall mt s.device s.dtype attn])

/-- Embedding of the lazy model properties (`custom_voice_model`,
`voice_design_model`, `base_model`, and the small variants): return the
cached instance, else load and cache it. -/
def get_model (env : Backend) (s : EngineState) (mt : ModelType) :
    Except PyError Model × EngineState × List Event :=
  match s.models.get mt with
  | some m => (Except.ok m, s, [])
  | none =>
      match load_model env s mt with
      | (Except.ok m, s1, tr) =>
          (Except.ok m, { s1 with models := s1.models.set mt (some m) }, tr)
      | (Except.error e, s1, tr) => (Except.error e, s1, tr)

/-- Embedding of `unload_model`: clears the slot (and logs) when an
instance is present, no-op otherwise. -/
def unload_model (s : EngineState) (mt : ModelType) : EngineState × List Event :=
  if (s.models.get mt).isSome then
    ({ s with models := s.models.set mt none }, [Event.unload mt])
  else
    (s, [])

/-- Embedding of `unload_all_models`: unload every variant in enum order. -/
def unload_all_models (s : EngineState) : EngineState × List Event :=
  ModelType.all.foldl
    (fun acc mt =>
      let u := unload_model acc.1 mt
      (u.1, acc.2 ++ u.2))
    (s, [])

/-- The state mutation of the fallback handlers: force CPU and fp32
(`self._device = "cpu"; self._dtype = torch.float32`). -/
def downgradeToSafe (s : EngineState) : EngineState :=
  { s with device := Device.cpu, dtype := Dtype.float32 }

@[simp] theorem downgradeToSafe_device (s : EngineState) :
    (downgradeToSafe s).device = Device.cpu := rfl

@[simp] theorem downgradeToSafe_dtype (s : EngineState) :
    (downgradeToSafe s).dtype = Dtype.float32 := rfl

@[simp] theorem downgradeToSafe_models (s : EngineState) :
    (downgradeToSafe s).models = s.models := rfl

@[simp] theorem downgradeToSafe_cache (s : EngineState) :
    (downgradeToSafe s).clone_prompt_cache = s.clone_prompt_cache := rfl

@[simp] theorem downgradeToSafe_flag (s : EngineState) :
    (downgradeToSafe s).use_small_models = s.use_small_models := rfl

/-- Python falsiness of `text.strip()`: all characters are whitespace. -/
def isBlank (s : String) : Bool :=
  s.data.all Char.isWhitespace

/-- The substring matched by the fallback handlers of the engine. -/
def exhaustionSig : String := "channels > 65536"

/-- Whether the second list is an initial segment of the first. -/
def startsWithList : List Char → List Char → Bool
  | _, [] => true
  | [], _ :: _ => false
  | a :: as, b :: bs => a == b && startsWithList as bs

/-- Substring search over character lists. -/
def hasSubList (hay needle : List Char) : Bool :=
  startsWithList hay needle ||
    match hay with
    | [] => false
    | _ :: rest => hasSubList rest needle

/-- Python `needle in hay` on strings. -/
def containsSub (hay needle : String) : Bool :=
  hasSubList hay.data needle.data

/-- Python truthiness of an optional string (`if reference_text`). -/
def optTruthy : Option String → Bool
  | some t => t ≠ ""
  | none => false

/-- The `model_size` values routed to the 0.6B variants. -/
def isSmallSize (model_size : String) : Bool :=
  model_size = "0.6B" || model_size = "small" || model_size = "small-model"

/-- Preset resolution in `generate_preset`: catalog hit, or the default
preset together with a logged warning. -/
def resolvePreset (preset_name : String) : VoicePreset × List Event :=
  match dictGet presetCatalog preset_name with
  | some p => (p, [])
  | none =>
      (deepMalePreset,
       [Event.warn ("Unknown preset " ++ preset_name ++ ", using Deep Male")])

/-- Body of the `try` block of `generate_preset`: acquire the model (this
may itself raise from `_load_model`), then one backend generation call.
The error value is `str(e)` of the caught exception. -/
def preset_attempt (env : Backend) (s : EngineState)
    (text language speaker instruct : String) (mt : ModelType) :
    Except String AudioBytes × EngineState × List Event :=
  match get_model env s mt with
  | (Except.error e, s1, tr1) => (Except.error e.msg, s1, tr1)
  | (Except.ok m, s1, tr1) =>
      let tr2 := tr1 ++ [Event.genCustomVoice text language speaker instruct]
      match env.genCustomVoice m text language speaker instruct with
      | Except.ok a => (Except.ok (audio_to_bytes a), s1, tr2)
      | Except.error msg => (Except.error msg, s1, tr2)

/-- Embedding of `generate_preset`.  The Python method calls itself
recursively in the fallback branch; the recursion is rendered with a
fuel parameter, and `generate_preset_fuel_stable` below proves that fuel
2 already reaches the fixpoint, so the sentinel value of fuel 0 is
unreachable from the actual entry point. -/
def generate_preset_fuel (env : Backend) :
    Nat → EngineState → String → String → String → String →
    Except PyError AudioBytes × EngineState × List Event
  | 0, s, _, _, _, _ =>
      (Except.error ⟨PyExcClass.OtherError, "recursion limit"⟩, s, [])
  | fuel + 1, s, text, preset_name, language, model_size =>
      if isBlank text then
        (Except.error ⟨PyExcClass.ValueError, "Text cannot be empty"⟩, s, [])
      else
        let pr := resolvePreset preset_name
        let mt := if isSmallSize model_size then ModelType.custom_voice_small
                  else ModelType.custom_voice
        match preset_attempt env s text language pr.1.speaker pr.1.instruct mt with
        | (Except.ok b, s1, tr1) => (Except.ok b, s1, pr.2 ++ tr1)
        | (Except.error msg, s1, tr1) =>
            if containsSub msg exhaustionSig && s1.device == Device.mps then
              let u := unload_model s1 mt
              let s3 := downgradeToSafe u.1
              let r := generate_preset_fuel env fuel s3 text preset_name language model_size
              (r.1, r.2.1, pr.2 ++ tr1 ++ u.2 ++ [Event.retry] ++ r.2.2)
            else
              (Except.error ⟨PyExcClass.RuntimeError,
                 "Speech generation failed: " ++ msg⟩, s1, pr.2 ++ tr1)

/-- `QwenTTSEngine.generate_preset`. -/
def generate_preset (env : Backend) (s : EngineState)
    (text preset_name language model_size : String) :
    Except PyError AudioBytes × EngineState × List Event :=
  generate_preset_fuel env 2 s text preset_name language model_size

/-- Body of the `try` block of `generate_voice_design`. -/
def design_attempt (env : Backend) (s : EngineState)
    (text voice_description language : String) :
    Except String AudioBytes × EngineState × List Event :=
  match get_model env s ModelType.voice_design with
  | (Except.error e, s1, tr1) => (Except.error e.msg, s1, tr1)
  | (Except.ok m, s1, tr1) =>
      let tr2 := tr1 ++ [Event.genVoiceDesign text language voice_description]
      match env.genVoiceDesign m text language voice_description with
      | Except.ok a => (Except.ok (audio_to_bytes a), s1, tr2)
      | Except.error msg => (Except.error msg, s1, tr2)

/-- Embedding of `generate_voice_design`, fuel-rendered as for
`generate_preset_fuel`. -/
def generate_voice_design_fuel (env : Backend) :
    Nat → EngineState → String → String → String →
    Except PyError AudioBytes × EngineState × List Event
  | 0, s, _, _, _ =>
      (Except.error ⟨PyExcClass.OtherError, "recursion limit"⟩, s, [])
  | fuel + 1, s, text, voice_description, language =>
      if isBlank text then
        (Except.error ⟨PyExcClass.ValueError, "Text cannot be empty"⟩, s, [])
      else if isBlank voice_description then
        (Except.error ⟨PyExcClass.ValueError,
           "Voice description cannot be empty"⟩, s, [])
      else
        match design_attempt env s text voice_description language with
        | (Except.ok b, s1, tr1) => (Except.ok b, s1, tr1)
        | (Except.error msg, s1, tr1) =>
            if containsSub msg exhaustionSig && s1.device == Device.mps then
              let u := unload_model s1 ModelType.voice_design
              let s3 := downgradeToSafe u.1
              let r := generate_voice_design_fuel env fuel s3 text voice_description language
              (r.1, r.2.1, tr1 ++ u.2 ++ [Event.retry] ++ r.2.2)
            else
              (Except.error ⟨PyExcClass.RuntimeError,
                 "Voice design failed: " ++ msg⟩, s1, tr1)

/-- `QwenTTSEngine.generate_voice_design`. -/
def generate_voice_design (env : Backend) (s : EngineState)
    (text voice_description language : String) :
    Except PyError AudioBytes × EngineState × List Event :=
  generate_voice_design_fuel env 2 s text voice_description language

/-- Body of the `try` block of `generate_clone`: acquire the model, then
either the full-clone call (transcript present and x-vector mode off) or
the ephemeral-prompt path (prompt construction plus generation). -/
def clone_attempt (env : Backend) (s : EngineState)
    (text reference_audio_path : String) (reference_text : Option String)
    (language : String) (use_x_vector_only : Bool) (mt : ModelType) :
    Except String AudioBytes × EngineState × List Event :=
  match get_model env s mt with
  | (Except.error e, s1, tr1) => (Except.error e.msg, s1, tr1)
  | (Except.ok m, s1, tr1) =>
      if optTruthy reference_text && !use_x_vector_only then
        let tr2 := tr1 ++ [Event.genVoiceClone text language]
        match env.genCloneRef m text language reference_audio_path
            (reference_text.getD "") with
        | Except.ok a => (Except.ok (audio_to_bytes a), s1, tr2)
        | Except.error msg => (Except.error msg, s1, tr2)
      else
        let tr2 := tr1 ++ [Event.createPrompt reference_audio_path true]
        match env.makeClonePrompt m reference_audio_path none true with
        | Except.error msg => (Except.error msg, s1, tr2)
        | Except.ok p =>
            let tr3 := tr2 ++ [Event.genVoiceClone text language]
            match env.genClonePrompt m text language p with
            | Except.ok a => (Except.ok (audio_to_bytes a), s1, tr3)
            | Except.error msg => (Except.error msg, s1, tr3)

/-- Embedding of `generate_clone`, fuel-rendered as for
`generate_preset_fuel`. -/
def generate_clone_fuel (env : Backend) :
    Nat → EngineState → String → String → Option String → String → Bool → String →
    Except PyError AudioBytes × EngineState × List Event
  | 0, s, _, _, _, _, _, _ =>
      (Except.error ⟨PyExcClass.OtherError, "recursion limit"⟩, s, [])
  | fuel + 1, s, text, reference_audio_path, reference_text, language,
      use_x_vector_only, model_size =>
      if isBlank text then
        (Except.error ⟨PyExcClass.ValueError, "Text cannot be empty"⟩, s, [])
      else
        let mt := if isSmallSize model_size then ModelType.base_small
                  else ModelType.base
        match clone_attempt env s text reference_audio_path reference_text
            language use_x_vector_only mt with
        | (Except.ok b, s1, tr1) => (Except.ok b, s1, tr1)
        | (Except.error msg, s1, tr1) =>
            if containsSub msg exhaustionSig && s1.device == Device.mps then
              let u := unload_model s1 mt
              let s3 := downgradeToSafe u.1
              let r := generate_clone_fuel env fuel s3 text reference_audio_path
                  reference_text language use_x_vector_only model_size
              (r.1, r.2.1, tr1 ++ u.2 ++ [Event.retry] ++ r.2.2)
            else
              (Except.error ⟨PyExcClass.RuntimeError,
                 "Voice cloning failed: " ++ msg⟩, s1, tr1)

/-- `QwenTTSEngine.generate_clone`. -/
def generate_clone (env : Backend) (s : EngineState)
    (text reference_audio_path : String) (reference_text : Option String)
    (language : String) (use_x_vector_only : Bool) (model_size : String) :
    Except PyError AudioBytes × EngineState × List Event :=
  generate_clone_fuel env 2 s text reference_audio_path reference_text
    language use_x_vector_only model_size

/-- Embedding of `create_reusable_clone_prompt`: derive or accept the
prompt id, acquire the 1.7B Base model, build the prompt (full mode when
a transcript is given, x-vector mode when it is Python `None`), cache it
under the id.  No handler wraps exceptions here. -/
def create_reusable_clone_prompt (env : Backend) (s : EngineState)
    (reference_audio_path : String) (reference_text : Option String)
    (prompt_id : Option String) :
    Except PyError String × EngineState × List Event :=
  let pid := match prompt_id with
    | some p => p
    | none => strTake (env.md5hex reference_audio_path) 12
  match get_model env s ModelType.base with
  | (Except.error e, s1, tr1) => (Except.error e, s1, tr1)
  | (Except.ok m, s1, tr1) =>
      let tr2 := tr1 ++ [Event.createPrompt reference_audio_path reference_text.isNone]
      match env.makeClonePrompt m reference_audio_path reference_text
          reference_text.isNone with
      | Except.ok p =>
          (Except.ok pid,
           { s1 with clone_prompt_cache := dictSet s1.clone_prompt_cache pid p },
           tr2)
      | Except.error msg => (Except.error ⟨PyExcClass.OtherError, msg⟩, s1, tr2)

/-- Embedding of `generate_from_cached_clone`: cache lookup (raising
`ValueError` on a missing id), then the 1.7B Base model generates from
the cached prompt.  Note: the method performs no text validation and has
no fallback handler. -/
def generate_from_cached_clone (env : Backend) (s : EngineState)
    (text prompt_id language : String) :
    Except PyError AudioBytes × EngineState × List Event :=
  match dictGet s.clone_prompt_cache prompt_id with
  | none =>
      (Except.error ⟨PyExcClass.ValueError,
         "Clone prompt " ++ prompt_id ++ " not found in cache"⟩, s, [])
  | some p =>
      match get_model env s ModelType.base with
      | (Except.error e, s1, tr1) => (Except.error e, s1, tr1)
      | (Except.ok m, s1, tr1) =>
          let tr2 := tr1 ++ [Event.genVoiceClone text language]
          match env.genClonePrompt m text language p with
          | Except.ok a => (Except.ok (audio_to_bytes a), s1, tr2)
          | Except.error msg => (Except.error ⟨PyExcClass.OtherError, msg⟩, s1, tr2)

/-- String rendering of a torch dtype, as `str(self.dtype)`. -/
def dtypeStr : Dtype → String
  | Dtype.float32 => "torch.float32"
  | Dtype.bfloat16 => "torch.bfloat16"

/-- The status payload returned by `get_status`. -/
structure Status where
  device : Device
  dtype : String
  use_small_models : Bool
  models_loaded : Slots Bool
  model_errors : Slots (Option String)
  available_presets : List String
  cached_clone_prompts : List String
deriving DecidableEq

/-- Embedding of `get_status`: a read-only report of the engine state. -/
def get_status (s : EngineState) : Status × EngineState × List Event :=
  ({ device := s.device
     dtype := dtypeStr s.dtype
     use_small_models := s.use_small_models
     models_loaded := s.models.map Option.isSome
     model_errors := s.model_load_errors.map Option.join
     available_presets := dictKeys presetCatalog
     cached_clone_prompts := dictKeys s.clone_prompt_cache }, s, [])

/-- Number of fallback retries recorded in a trace. -/
def retryCount (tr : List Event) : Nat :=
  (tr.filter (fun e => e == Event.retry)).length

/-- Number of backend load calls recorded in a trace. -/
def loadCount (tr : List Event) : Nat :=
  (tr.filter (fun e => match e with | Event.loadCall _ _ _ _ => true | _ => false)).length

/-- Whether a trace contains any backend interaction (load, generation,
or prompt construction). -/
def touchesBackend (tr : List Event) : Bool :=
  tr.any (fun e => match e with
    | Event.loadCall _ _ _ _ => true
    | Event.genCustomVoice _ _ _ _ => true
    | Event.genVoiceDesign _ _ _ => true
    | Event.genVoiceClone _ _ => true
    | Event.createPrompt _ _ => true
    | _ => false)

/-- Every backend load call in the trace runs on the given device and
precision. -/
def loadsOnB (d : Device) (dt : Dtype) (tr : List Event) : Bool :=
  tr.all (fun e => match e with
    | Event.loadCall _ dev dty _ => dev == d && dty == dt
    | _ => true)

/-- Every load or eviction in the trace concerns the 1.7B Base variant. -/
def onlyBase (tr : List Event) : Bool :=
  tr.all (fun e => match e with
    | Event.loadCall mt _ _ _ => mt == ModelType.base
    | Event.unload mt => mt == ModelType.base
    | _ => true)

/-- Every custom-voice generation call in the trace uses the given
speaker and style instruction. -/
def genUses (speaker instruct : String) (tr : List Event) : Bool :=
  tr.all (fun e => match e with
    | Event.genCustomVoice _ _ sp ins => sp == speaker && ins == instruct
    | _ => true)

/-- Trace with the logged warnings removed. -/
def dropWarn (tr : List Event) : List Event :=
  tr.filter (fun e => match e with | Event.warn _ => false | _ => true)

theorem loadsOnB_append (d : Device) (dt : Dtype) (a b : List Event) :
    loadsOnB d dt (a ++ b) = (loadsOnB d dt a && loadsOnB d dt b) := by
  simp [loadsOnB]

theorem retryCount_append (a b : List Event) :
    retryCount (a ++ b) = retryCount a + retryCount b := by
  simp [retryCount]

theorem dropWarn_append (a b : List Event) :
    dropWarn (a ++ b) = dropWarn a ++ dropWarn b := by
  simp [dropWarn]

theorem retryCount_one_retry : retryCount [Event.retry] = 1 := by
  simp [retryCount]

theorem retryCount_retry_cons (tr : List Event) :
    retryCount (Event.retry :: tr) = retryCount tr + 1 := by
  simp [retryCount, List.filter]

theorem retryCount_nil : retryCount [] = 0 := by
  simp [retryCount]

theorem dropWarn_nil : dropWarn [] = [] := rfl

theorem dropWarn_warn_cons (w : String) (tr : List Event) :
    dropWarn (Event.warn w :: tr) = dropWarn tr := by
  simp [dropWarn]

theorem dropWarn_retry_cons (tr : List Event) :
    dropWarn (Event.retry :: tr) = Event.retry :: dropWarn tr := by
  simp [dropWarn, List.filter]

theorem genUses_retry_cons (sp ins : String) (tr : List Event) :
    genUses sp ins (Event.retry :: tr) = genUses sp ins tr := by
  simp [genUses]

theorem onlyBase_append (a b : List Event) :
    onlyBase (a ++ b) = (onlyBase a && onlyBase b) := by
  simp [onlyBase]

theorem genUses_append (sp ins : String) (a b : List Event) :
    genUses sp ins (a ++ b) = (genUses sp ins a && genUses sp ins b) := by
  simp [genUses]

/-- A trace consisting of backend load calls only. -/
def onlyLoads (tr : List Event) : Bool :=
  tr.all (fun e => match e with | Event.loadCall _ _ _ _ => true | _ => false)

theorem genUses_of_onlyLoads (sp ins : String) (tr : List Event)
    (h : onlyLoads tr = true) : genUses sp ins tr = true := by
  simp only [onlyLoads, List.all_eq_true] at h
  simp only [genUses, List.all_eq_true]
  intro e he
  have := h e he
  cases e <;> simp_all

theorem retryCount_of_onlyLoads (tr : List Event)
    (h : onlyLoads tr = true) : retryCount tr = 0 := by
  simp only [onlyLoads, List.all_eq_true] at h
  simp only [retryCount, List.length_eq_zero, List.filter_eq_nil_iff]
  intro e he
  have := h e he
  cases e <;> simp_all

theorem dropWarn_of_onlyLoads (tr : List Event)
    (h : onlyLoads tr = true) : dropWarn tr = tr := by
  simp only [onlyLoads, List.all_eq_true] at h
  simp only [dropWarn, List.filter_eq_self]
  intro e he
  have := h e he
  cases e <;> simp_all

/-- `_load_model` changes only the error record: device, dtype, slots,
prompt cache and the small-models flag are untouched, and its single
load call runs on the current device and precision. -/
theorem load_model_snd (env : Backend) (s : EngineState) (mt : ModelType) :
    ((load_model env s mt).2.1).device = s.device ∧
    ((load_model env s mt).2.1).dtype = s.dtype ∧
    ((load_model env s mt).2.1).clone_prompt_cache = s.clone_prompt_cache ∧
    ((load_model env s mt).2.1).use_small_models = s.use_small_models ∧
    ((load_model env s mt).2.1).models = s.models ∧
    loadsOnB s.device s.dtype ((load_model env s mt).2.2) = true ∧
    onlyLoads ((load_model env s mt).2.2) = true := by
  rcases h : env.loadModel (get_model_id env mt) s.device s.dtype (attnFor env s.device)
    with e | m <;>
    simp [load_model, h, loadsOnB, onlyLoads]

/-- The lazy model accessor changes only the slot and error record of the
requested variant, and any load it performs runs on the current device
and precision. -/
theorem get_model_snd (env : Backend) (s : EngineState) (mt : ModelType) :
    ((get_model env s mt).2.1).device = s.device ∧
    ((get_model env s mt).2.1).dtype = s.dtype ∧
    ((get_model env s mt).2.1).clone_prompt_cache = s.clone_prompt_cache ∧
    ((get_model env s mt).2.1).use_small_models = s.use_small_models ∧
    loadsOnB s.device s.dtype ((get_model env s mt).2.2) = true ∧
    onlyLoads ((get_model env s mt).2.2) = true := by
  unfold get_model
  cases hm : s.models.get mt
  · have h := load_model_snd env s mt
    rcases hl : load_model env s mt with ⟨r, s1, tr⟩
    rw [hl] at h
    cases r <;> simp_all
  · simp [loadsOnB, onlyLoads]

/-- The `try` body of `generate_preset` preserves device, precision,
prompt cache and flag; its trace has no retries or warnings, loads only
on the current device, and its generation calls use exactly the given
speaker and instruction. -/
theorem preset_attempt_snd (env : Backend) (s : EngineState)
    (text language speaker instruct : String) (mt : ModelType) :
    ((preset_attempt env s text language speaker instruct mt).2.1).device = s.device ∧
    ((preset_attempt env s text language speaker instruct mt).2.1).dtype = s.dtype ∧
    ((preset_attempt env s text language speaker instruct mt).2.1).clone_prompt_cache
      = s.clone_prompt_cache ∧
    ((preset_attempt env s text language speaker instruct mt).2.1).use_small_models
      = s.use_small_models ∧
    loadsOnB s.device s.dtype
      ((preset_attempt env s text language speaker instruct mt).2.2) = true ∧
    retryCount ((preset_attempt env s text language speaker instruct mt).2.2) = 0 ∧
    dropWarn ((preset_attempt env s text language speaker instruct mt).2.2)
      = (preset_attempt env s text language speaker instruct mt).2.2 ∧
    genUses speaker instruct
      ((preset_attempt env s text language speaker instruct mt).2.2) = true := by
  have hg := get_model_snd env s mt
  rcases hG : get_model env s mt with ⟨r, s1, tr1⟩
  rw [hG] at hg
  simp only [] at hg
  obtain ⟨h1, h2, h3, h4, h5, h6⟩ := hg
  have hr := retryCount_of_onlyLoads tr1 h6
  have hw := dropWarn_of_onlyLoads tr1 h6
  have hu := genUses_of_onlyLoads speaker instruct tr1 h6
  cases r with
  | error e =>
      simp [preset_attempt, hG, h1, h2, h3, h4, h5, hr, hw, hu]
  | ok m =>
      rcases hx : env.genCustomVoice m text language speaker instruct with e | a <;>
        simp_all [preset_attempt, loadsOnB_append, retryCount_append,
          dropWarn_append, genUses_append, loadsOnB, retryCount, dropWarn, genUses]

/-- The `try` body of `generate_voice_design` preserves device,
precision, prompt cache and flag; its trace has no retries or warnings
and loads only on the current device. -/
theorem design_attempt_snd (env : Backend) (s : EngineState)
    (text voice_description language : String) :
    ((design_attempt env s text voice_description language).2.1).device = s.device ∧
    ((design_attempt env s text voice_description language).2.1).dtype = s.dtype ∧
    ((design_attempt env s text voice_description language).2.1).clone_prompt_cache
      = s.clone_prompt_cache ∧
    ((design_attempt env s text voice_description language).2.1).use_small_models
      = s.use_small_models ∧
    loadsOnB s.device s.dtype
      ((design_attempt env s text voice_description language).2.2) = true ∧
    retryCount ((design_attempt env s text voice_description language).2.2) = 0 ∧
    dropWarn ((design_attempt env s text voice_description language).2.2)
      = (design_attempt env s text voice_description language).2.2 := by
  have hg := get_model_snd env s ModelType.voice_design
  rcases hG : get_model env s ModelType.voice_design with ⟨r, s1, tr1⟩
  rw [hG] at hg
  simp only [] at hg
  obtain ⟨h1, h2, h3, h4, h5, h6⟩ := hg
  have hr := retryCount_of_onlyLoads tr1 h6
  have hw := dropWarn_of_onlyLoads tr1 h6
  cases r with
  | error e =>
      simp [design_attempt, hG, h1, h2, h3, h4, h5, hr, hw]
  | ok m =>
      rcases hx : env.genVoiceDesign m text language voice_description with e | a <;>
        simp_all [design_attempt, loadsOnB_append, retryCount_append,
          dropWarn_append, loadsOnB, retryCount, dropWarn]

/-- The `try` body of `generate_clone` preserves device, precision,
prompt cache and flag; its trace has no retries or warnings and loads
only on the current device. -/
theorem clone_attempt_snd (env : Backend) (s : EngineState)
    (text reference_audio_path : String) (reference_text : Option String)
    (language : String) (use_x_vector_only : Bool) (mt : ModelType) :
    ((clone_attempt env s text reference_audio_path reference_text language
        use_x_vector_only mt).2.1).device = s.device ∧
    ((clone_attempt env s text reference_audio_path reference_text language
        use_x_vector_only mt).2.1).dtype = s.dtype ∧
    ((clone_attempt env s text reference_audio_path reference_text language
        use_x_vector_only mt).2.1).clone_prompt_cache = s.clone_prompt_cache ∧
    ((clone_attempt env s text reference_audio_path reference_text language
        use_x_vector_only mt).2.1).use_small_models = s.use_small_models ∧
    loadsOnB s.device s.dtype
      ((clone_attempt env s text reference_audio_path reference_text language
        use_x_vector_only mt).2.2) = true ∧
    retryCount ((clone_attempt env s text reference_audio_path reference_text language
        use_x_vector_only mt).2.2) = 0 ∧
    dropWarn ((clone_attempt env s text reference_audio_path reference_text language
        use_x_vector_only mt).2.2)
      = (clone_attempt env s text reference_audio_path reference_text language
        use_x_vector_only mt).2.2 := by
  have hg := get_model_snd env s mt
  rcases hG : get_model env s mt with ⟨r, s1, tr1⟩
  rw [hG] at hg
  simp only [] at hg
  obtain ⟨h1, h2, h3, h4, h5, h6⟩ := hg
  have hr := retryCount_of_onlyLoads tr1 h6
  have hw := dropWarn_of_onlyLoads tr1 h6
  cases r with
  | error e =>
      simp [clone_attempt, hG, h1, h2, h3, h4, h5, hr, hw]
  | ok m =>
      cases hb : optTruthy reference_text && !use_x_vector_only
      case false =>
        rcases hp : env.makeClonePrompt m reference_audio_path none true with e | p
        · simp only [clone_attempt, hG, hb, Bool.false_eq_true, if_false, hp]
          simp_all [loadsOnB_append, retryCount_append, dropWarn_append,
            loadsOnB, retryCount, dropWarn]
        · rcases hx : env.genClonePrompt m text language p with e | a <;>
            (simp only [clone_attempt, hG, hb, Bool.false_eq_true, if_false, hp];
             simp_all [loadsOnB_append, retryCount_append, dropWarn_append,
               loadsOnB, retryCount, dropWarn])
      case true =>
        rcases hx : env.genCloneRef m text language reference_audio_path
            (reference_text.getD "") with e | a <;>
          (simp only [clone_attempt, hG, hb, if_true, hx];
           simp_all [loadsOnB_append, retryCount_append, dropWarn_append,
             loadsOnB, retryCount, dropWarn])

/-- On a non-MPS device the fallback branch of `generate_preset` is dead:
the result does not depend on the remaining fuel. -/
theorem generate_preset_fuel_no_retry (env : Backend) (n m : Nat) (s : EngineState)
    (text preset_name language model_size : String) (h : s.device ≠ Device.mps) :
    generate_preset_fuel env (n+1) s text preset_name language model_size =
    generate_preset_fuel env (m+1) s text preset_name language model_size := by
  simp only [generate_preset_fuel]
  cases hBt : isBlank text
  case true => simp [hBt]
  case false =>
    simp only [hBt, Bool.false_eq_true, if_false]
    split
    · rfl
    · next msg s1 tr1 heq =>
        have hd := (preset_attempt_snd env s text language
          (resolvePreset preset_name).1.speaker (resolvePreset preset_name).1.instruct
          (if isSmallSize model_size then ModelType.custom_voice_small
           else ModelType.custom_voice)).1
        rw [heq] at hd
        split
        · next hc =>
            exfalso
            apply h
            rw [← hd]
            have := (Bool.and_eq_true _ _).mp hc
            exact eq_of_beq this.2
        · rfl

/-- Any fuel of at least two gives `generate_preset` its fixpoint: the
Python recursion has depth at most two, so the fuel-rendering with fuel 2
is exact. -/
theorem generate_preset_fuel_stable (env : Backend) (n : Nat) (s : EngineState)
    (text preset_name language model_size : String) :
    generate_preset_fuel env (n+1+1) s text preset_name language model_size =
    generate_preset_fuel env (0+1+1) s text preset_name language model_size := by
  conv_lhs => rw [generate_preset_fuel]
  conv_rhs => rw [generate_preset_fuel]
  cases hBt : isBlank text
  case true => simp [hBt]
  case false =>
    simp only [hBt, Bool.false_eq_true, if_false]
    split
    · rfl
    · next msg s1 tr1 heq =>
        split
        · next hc =>
            rw [generate_preset_fuel_no_retry env n 0
              (downgradeToSafe (unload_model s1 (if isSmallSize model_size then ModelType.custom_voice_small
                  else ModelType.custom_voice)).1)
              text preset_name language model_size (by simp)]
        · rfl

/-- On a non-MPS device the fallback branch of `generate_voice_design`
is dead: the result does not depend on the remaining fuel. -/
theorem generate_voice_design_fuel_no_retry (env : Backend) (n m : Nat) (s : EngineState)
    (text voice_description language : String) (h : s.device ≠ Device.mps) :
    generate_voice_design_fuel env (n+1) s text voice_description language =
    generate_voice_design_fuel env (m+1) s text voice_description language := by
  simp only [generate_voice_design_fuel]
  cases hBt : isBlank text
  case true => simp [hBt]
  case false =>
    cases hBv : isBlank voice_description
    case true => simp [hBt, hBv]
    case false =>
      simp only [hBt, hBv, Bool.false_eq_true, if_false]
      split
      · rfl
      · next msg s1 tr1 heq =>
          have hd := (design_attempt_snd env s text voice_description language).1
          rw [heq] at hd
          split
          · next hc =>
              exfalso
              apply h
              rw [← hd]
              have := (Bool.and_eq_true _ _).mp hc
              exact eq_of_beq this.2
          · rfl

/-- Fuel 2 is the fixpoint of `generate_voice_design`. -/
theorem generate_voice_design_fuel_stable (env : Backend) (n : Nat) (s : EngineState)
    (text voice_description language : String) :
    generate_voice_design_fuel env (n+1+1) s text voice_description language =
    generate_voice_design_fuel env (0+1+1) s text voice_description language := by
  conv_lhs => rw [generate_voice_design_fuel]
  conv_rhs => rw [generate_voice_design_fuel]
  cases hBt : isBlank text
  case true => simp [hBt]
  case false =>
    cases hBv : isBlank voice_description
    case true => simp [hBt, hBv]
    case false =>
      simp only [hBt, hBv, Bool.false_eq_true, if_false]
      split
      · rfl
      · next msg s1 tr1 heq =>
          split
          · next hc =>
              rw [generate_voice_design_fuel_no_retry env n 0
                (downgradeToSafe (unload_model s1 ModelType.voice_design).1)
                text voice_description language (by simp)]
          · rfl

/-- On a non-MPS device the fallback branch of `generate_clone` is dead:
the result does not depend on the remaining fuel. -/
theorem generate_clone_fuel_no_retry (env : Backend) (n m : Nat) (s : EngineState)
    (text reference_audio_path : String) (reference_text : Option String)
    (language : String) (use_x_vector_only : Bool) (model_size : String)
    (h : s.device ≠ Device.mps) :
    generate_clone_fuel env (n+1) s text reference_audio_path reference_text
      language use_x_vector_only model_size =
    generate_clone_fuel env (m+1) s text reference_audio_path reference_text
      language use_x_vector_only model_size := by
  simp only [generate_clone_fuel]
  cases hBt : isBlank text
  case true => simp [hBt]
  case false =>
    simp only [hBt, Bool.false_eq_true, if_false]
    split
    · rfl
    · next msg s1 tr1 heq =>
        have hd := (clone_attempt_snd env s text reference_audio_path reference_text
          language use_x_vector_only
          (if isSmallSize model_size then ModelType.base_small else ModelType.base)).1
        rw [heq] at hd
        split
        · next hc =>
            exfalso
            apply h
            rw [← hd]
            have := (Bool.and_eq_true _ _).mp hc
            exact eq_of_beq this.2
        · rfl

/-- Fuel 2 is the fixpoint of `generate_clone`. -/
theorem generate_clone_fuel_stable (env : Backend) (n : Nat) (s : EngineState)
    (text reference_audio_path : String) (reference_text : Option String)
    (language : String) (use_x_vector_only : Bool) (model_size : String) :
    generate_clone_fuel env (n+1+1) s text reference_audio_path reference_text
      language use_x_vector_only model_size =
    generate_clone_fuel env (0+1+1) s text reference_audio_path reference_text
      language use_x_vector_only model_size := by
  conv_lhs => rw [generate_clone_fuel]
  conv_rhs => rw [generate_clone_fuel]
  cases hBt : isBlank text
  case true => simp [hBt]
  case false =>
    simp only [hBt, Bool.false_eq_true, if_false]
    split
    · rfl
    · next msg s1 tr1 heq =>
        split
        · next hc =>
            rw [generate_clone_fuel_no_retry env n 0
              (downgradeToSafe (unload_model s1 (if isSmallSize model_size then ModelType.base_small
                  else ModelType.base)).1)
              text reference_audio_path reference_text language use_x_vector_only
              model_size (by simp)]
        · rfl

/-- Preset resolution emits at most a warning. -/
theorem resolvePreset_snd (preset_name : String) (d : Device) (dt : Dtype) :
    retryCount (resolvePreset preset_name).2 = 0 ∧
    loadsOnB d dt (resolvePreset preset_name).2 = true := by
  unfold resolvePreset
  cases dictGet presetCatalog preset_name <;> simp [retryCount, loadsOnB]

/-- Eviction preserves everything except the slot, and emits at most an
unload event. -/
theorem unload_model_snd (s : EngineState) (mt : ModelType) (d : Device) (dt : Dtype) :
    ((unload_model s mt).1).device = s.device ∧
    ((unload_model s mt).1).dtype = s.dtype ∧
    ((unload_model s mt).1).clone_prompt_cache = s.clone_prompt_cache ∧
    ((unload_model s mt).1).use_small_models = s.use_small_models ∧
    retryCount ((unload_model s mt).2) = 0 ∧
    loadsOnB d dt ((unload_model s mt).2) = true := by
  unfold unload_model
  cases (s.models.get mt).isSome <;> simp [retryCount, loadsOnB]

/-- On a non-MPS device, `generate_preset` never retries, keeps device,
precision, prompt cache and flag unchanged, and loads only on the
current device and precision. -/
theorem generate_preset_fuel_nomps_snd (env : Backend) (n : Nat) (s : EngineState)
    (text preset_name language model_size : String) (h : s.device ≠ Device.mps) :
    ((generate_preset_fuel env (n+1) s text preset_name language model_size).2.1).device
      = s.device ∧
    ((generate_preset_fuel env (n+1) s text preset_name language model_size).2.1).dtype
      = s.dtype ∧
    ((generate_preset_fuel env (n+1) s text preset_name language model_size).2.1).clone_prompt_cache
      = s.clone_prompt_cache ∧
    ((generate_preset_fuel env (n+1) s text preset_name language model_size).2.1).use_small_models
      = s.use_small_models ∧
    loadsOnB s.device s.dtype
      ((generate_preset_fuel env (n+1) s text preset_name language model_size).2.2) = true ∧
    retryCount
      ((generate_preset_fuel env (n+1) s text preset_name language model_size).2.2) = 0 := by
  have hres := resolvePreset_snd preset_name s.device s.dtype
  have hA := preset_attempt_snd env s text language
      (resolvePreset preset_name).1.speaker (resolvePreset preset_name).1.instruct
      (if isSmallSize model_size then ModelType.custom_voice_small
       else ModelType.custom_voice)
  simp only [generate_preset_fuel]
  cases hBt : isBlank text
  case true => simp [hBt, retryCount, loadsOnB]
  case false =>
    simp only [hBt, Bool.false_eq_true, if_false]
    split
    · next b s1 tr1 heq =>
        rw [heq] at hA
        simp only [] at hA
        simp [loadsOnB_append, retryCount_append, hA.1, hA.2.1, hA.2.2.1, hA.2.2.2.1,
          hA.2.2.2.2.1, hA.2.2.2.2.2.1, hres.1, hres.2]
    · next msg s1 tr1 heq =>
        rw [heq] at hA
        simp only [] at hA
        split
        · next hc =>
            exfalso
            apply h
            rw [← hA.1]
            have := (Bool.and_eq_true _ _).mp hc
            exact eq_of_beq this.2
        · simp [loadsOnB_append, retryCount_append, hA.1, hA.2.1, hA.2.2.1, hA.2.2.2.1,
            hA.2.2.2.2.1, hA.2.2.2.2.2.1, hres.1, hres.2]

/-- On a non-MPS device, `generate_voice_design` never retries, keeps
device, precision, prompt cache and flag unchanged, and loads only on
the current device and precision. -/
theorem generate_voice_design_fuel_nomps_snd (env : Backend) (n : Nat) (s : EngineState)
    (text voice_description language : String) (h : s.device ≠ Device.mps) :
    ((generate_voice_design_fuel env (n+1) s text voice_description language).2.1).device
      = s.device ∧
    ((generate_voice_design_fuel env (n+1) s text voice_description language).2.1).dtype
      = s.dtype ∧
    ((generate_voice_design_fuel env (n+1) s text voice_description language).2.1).clone_prompt_cache
      = s.clone_prompt_cache ∧
    ((generate_voice_design_fuel env (n+1) s text voice_description language).2.1).use_small_models
      = s.use_small_models ∧
    loadsOnB s.device s.dtype
      ((generate_voice_design_fuel env (n+1) s text voice_description language).2.2) = true ∧
    retryCount
      ((generate_voice_design_fuel env (n+1) s text voice_description language).2.2) = 0 := by
  have hA := design_attempt_snd env s text voice_description language
  simp only [generate_voice_design_fuel]
  cases hBt : isBlank text
  case true => simp [hBt, retryCount, loadsOnB]
  case false =>
    cases hBv : isBlank voice_description
    case true => simp [hBt, hBv, retryCount, loadsOnB]
    case false =>
      simp only [hBt, hBv, Bool.false_eq_true, if_false]
      split
      · next b s1 tr1 heq =>
          rw [heq] at hA
          simp only [] at hA
          simp [hA.1, hA.2.1, hA.2.2.1, hA.2.2.2.1, hA.2.2.2.2.1, hA.2.2.2.2.2.1]
      · next msg s1 tr1 heq =>
          rw [heq] at hA
          simp only [] at hA
          split
          · next hc =>
              exfalso
              apply h
              rw [← hA.1]
              have := (Bool.and_eq_true _ _).mp hc
              exact eq_of_beq this.2
          · simp [hA.1, hA.2.1, hA.2.2.1, hA.2.2.2.1, hA.2.2.2.2.1, hA.2.2.2.2.2.1]

/-- On a non-MPS device, `generate_clone` never retries, keeps device,
precision, prompt cache and flag unchanged, and loads only on the
current device and precision. -/
theorem generate_clone_fuel_nomps_snd (env : Backend) (n : Nat) (s : EngineState)
    (text reference_audio_path : String) (reference_text : Option String)
    (language : String) (use_x_vector_only : Bool) (model_size : String)
    (h : s.device ≠ Device.mps) :
    ((generate_clone_fuel env (n+1) s text reference_audio_path reference_text
        language use_x_vector_only model_size).2.1).device = s.device ∧
    ((generate_clone_fuel env (n+1) s text reference_audio_path reference_text
        language use_x_vector_only model_size).2.1).dtype = s.dtype ∧
    ((generate_clone_fuel env (n+1) s text reference_audio_path reference_text
        language use_x_vector_only model_size).2.1).clone_prompt_cache
      = s.clone_prompt_cache ∧
    ((generate_clone_fuel env (n+1) s text reference_audio_path reference_text
        language use_x_vector_only model_size).2.1).use_small_models
      = s.use_small_models ∧
    loadsOnB s.device s.dtype
      ((generate_clone_fuel env (n+1) s text reference_audio_path reference_text
        language use_x_vector_only model_size).2.2) = true ∧
    retryCount
      ((generate_clone_fuel env (n+1) s text reference_audio_path reference_text
        language use_x_vector_only model_size).2.2) = 0 := by
  have hA := clone_attempt_snd env s text reference_audio_path reference_text
      language use_x_vector_only
      (if isSmallSize model_size then ModelType.base_small else ModelType.base)
  simp only [generate_clone_fuel]
  cases hBt : isBlank text
  case true => simp [hBt, retryCount, loadsOnB]
  case false =>
    simp only [hBt, Bool.false_eq_true, if_false]
    split
    · next b s1 tr1 heq =>
        rw [heq] at hA
        simp only [] at hA
        simp [hA.1, hA.2.1, hA.2.2.1, hA.2.2.2.1, hA.2.2.2.2.1, hA.2.2.2.2.2.1]
    · next msg s1 tr1 heq =>
        rw [heq] at hA
        simp only [] at hA
        split
        · next hc =>
            exfalso
            apply h
            rw [← hA.1]
            have := (Bool.and_eq_true _ _).mp hc
            exact eq_of_beq this.2
        · simp [hA.1, hA.2.1, hA.2.2.1, hA.2.2.2.1, hA.2.2.2.2.1, hA.2.2.2.2.2.1]

/-- On a non-MPS device a failing attempt of `generate_preset` surfaces
as a terminal `RuntimeError` with no eviction, downgrade or retry. -/
theorem generate_preset_terminal (env : Backend) (s : EngineState)
    (text preset_name language model_size msg : String)
    (s1 : EngineState) (tr1 : List Event)
    (h : s.device ≠ Device.mps) (ht : isBlank text = false)
    (hA : preset_attempt env s text language (resolvePreset preset_name).1.speaker
      (resolvePreset preset_name).1.instruct
      (if isSmallSize model_size then ModelType.custom_voice_small
       else ModelType.custom_voice) = (Except.error msg, s1, tr1)) :
    generate_preset env s text preset_name language model_size =
      (Except.error ⟨PyExcClass.RuntimeError, "Speech generation failed: " ++ msg⟩,
       s1, (resolvePreset preset_name).2 ++ tr1) := by
  have hd := (preset_attempt_snd env s text language
      (resolvePreset preset_name).1.speaker (resolvePreset preset_name).1.instruct
      (if isSmallSize model_size then ModelType.custom_voice_small
       else ModelType.custom_voice)).1
  rw [hA] at hd
  simp only [] at hd
  have hg : (s1.device == Device.mps) = false := by
    rw [hd]
    exact beq_eq_false_iff_ne.mpr h
  show generate_preset_fuel env (0+1+1) s text preset_name language model_size = _
  conv_lhs => rw [generate_preset_fuel]
  simp [ht, hA, hg]

/-- On MPS a failing attempt of `generate_preset` whose message carries
the exhaustion signature evicts the slot, downgrades to CPU/fp32, and
re-issues the identical request exactly once. -/
theorem generate_preset_fallback (env : Backend) (s : EngineState)
    (text preset_name language model_size msg : String)
    (s1 : EngineState) (tr1 : List Event)
    (h : s.device = Device.mps) (ht : isBlank text = false)
    (hA : preset_attempt env s text language (resolvePreset preset_name).1.speaker
      (resolvePreset preset_name).1.instruct
      (if isSmallSize model_size then ModelType.custom_voice_small
       else ModelType.custom_voice) = (Except.error msg, s1, tr1))
    (hx : containsSub msg exhaustionSig = true) :
    generate_preset env s text preset_name language model_size =
      ((generate_preset env
          (downgradeToSafe (unload_model s1 (if isSmallSize model_size then ModelType.custom_voice_small
              else ModelType.custom_voice)).1)
          text preset_name language model_size).1,
       (generate_preset env
          (downgradeToSafe (unload_model s1 (if isSmallSize model_size then ModelType.custom_voice_small
              else ModelType.custom_voice)).1)
          text preset_name language model_size).2.1,
       (resolvePreset preset_name).2 ++ tr1 ++
         (unload_model s1 (if isSmallSize model_size then ModelType.custom_voice_small
            else ModelType.custom_voice)).2 ++ [Event.retry] ++
         (generate_preset env
          (downgradeToSafe (unload_model s1 (if isSmallSize model_size then ModelType.custom_voice_small
              else ModelType.custom_voice)).1)
          text preset_name language model_size).2.2) := by
  have hd := (preset_attempt_snd env s text language
      (resolvePreset preset_name).1.speaker (resolvePreset preset_name).1.instruct
      (if isSmallSize model_size then ModelType.custom_voice_small
       else ModelType.custom_voice)).1
  rw [hA] at hd
  simp only [] at hd
  have hg : (s1.device == Device.mps) = true := by
    rw [hd, h]
    rfl
  have hrec := generate_preset_fuel_no_retry env 0 1
      (downgradeToSafe (unload_model s1 (if isSmallSize model_size then ModelType.custom_voice_small
          else ModelType.custom_voice)).1)
      text preset_name language model_size (by simp)
  show generate_preset_fuel env (0+1+1) s text preset_name language model_size = _
  conv_lhs => rw [generate_preset_fuel]
  simp [ht, hA, hg, hx, hrec, generate_preset]

/-- On a non-MPS device a failing attempt of `generate_voice_design`
surfaces as a terminal `RuntimeError` with no eviction, downgrade or
retry. -/
theorem generate_voice_design_terminal (env : Backend) (s : EngineState)
    (text voice_description language msg : String)
    (s1 : EngineState) (tr1 : List Event)
    (h : s.device ≠ Device.mps) (ht : isBlank text = false)
    (hv : isBlank voice_description = false)
    (hA : design_attempt env s text voice_description language
      = (Except.error msg, s1, tr1)) :
    generate_voice_design env s text voice_description language =
      (Except.error ⟨PyExcClass.RuntimeError, "Voice design failed: " ++ msg⟩,
       s1, tr1) := by
  have hd := (design_attempt_snd env s text voice_description language).1
  rw [hA] at hd
  simp only [] at hd
  have hg : (s1.device == Device.mps) = false := by
    rw [hd]
    exact beq_eq_false_iff_ne.mpr h
  show generate_voice_design_fuel env (0+1+1) s text voice_description language = _
  conv_lhs => rw [generate_voice_design_fuel]
  simp [ht, hv, hA, hg]

/-- On MPS a failing attempt of `generate_voice_design` whose message
carries the exhaustion signature evicts the slot, downgrades to CPU/fp32,
and re-issues the identical request exactly once. -/
theorem generate_voice_design_fallback (env : Backend) (s : EngineState)
    (text voice_description language msg : String)
    (s1 : EngineState) (tr1 : List Event)
    (h : s.device = Device.mps) (ht : isBlank text = false)
    (hv : isBlank voice_description = false)
    (hA : design_attempt env s text voice_description language
      = (Except.error msg, s1, tr1))
    (hx : containsSub msg exhaustionSig = true) :
    generate_voice_design env s text voice_description language =
      ((generate_voice_design env
          (downgradeToSafe (unload_model s1 ModelType.voice_design).1)
          text voice_description language).1,
       (generate_voice_design env
          (downgradeToSafe (unload_model s1 ModelType.voice_design).1)
          text voice_description language).2.1,
       tr1 ++ (unload_model s1 ModelType.voice_design).2 ++ [Event.retry] ++
         (generate_voice_design env
          (downgradeToSafe (unload_model s1 ModelType.voice_design).1)
          text voice_description language).2.2) := by
  have hd := (design_attempt_snd env s text voice_description language).1
  rw [hA] at hd
  simp only [] at hd
  have hg : (s1.device == Device.mps) = true := by
    rw [hd, h]
    rfl
  have hrec := generate_voice_design_fuel_no_retry env 0 1
      (downgradeToSafe (unload_model s1 ModelType.voice_design).1)
      text voice_description language (by simp)
  show generate_voice_design_fuel env (0+1+1) s text voice_description language = _
  conv_lhs => rw [generate_voice_design_fuel]
  simp [ht, hv, hA, hg, hx, hrec, generate_voice_design]

/-- On a non-MPS device a failing attempt of `generate_clone` surfaces
as a terminal `RuntimeError` with no eviction, downgrade or retry. -/
theorem generate_clone_terminal (env : Backend) (s : EngineState)
    (text reference_audio_path : String) (reference_text : Option String)
    (language : String) (use_x_vector_only : Bool) (model_size msg : String)
    (s1 : EngineState) (tr1 : List Event)
    (h : s.device ≠ Device.mps) (ht : isBlank text = false)
    (hA : clone_attempt env s text reference_audio_path reference_text language
      use_x_vector_only
      (if isSmallSize model_size then ModelType.base_small else ModelType.base)
      = (Except.error msg, s1, tr1)) :
    generate_clone env s text reference_audio_path reference_text language
      use_x_vector_only model_size =
      (Except.error ⟨PyExcClass.RuntimeError, "Voice cloning failed: " ++ msg⟩,
       s1, tr1) := by
  have hd := (clone_attempt_snd env s text reference_audio_path reference_text
      language use_x_vector_only
      (if isSmallSize model_size then ModelType.base_small else ModelType.base)).1
  rw [hA] at hd
  simp only [] at hd
  have hg : (s1.device == Device.mps) = false := by
    rw [hd]
    exact beq_eq_false_iff_ne.mpr h
  show generate_clone_fuel env (0+1+1) s text reference_audio_path reference_text
    language use_x_vector_only model_size = _
  conv_lhs => rw [generate_clone_fuel]
  simp [ht, hA, hg]

/-- On MPS a failing attempt of `generate_clone` whose message carries
the exhaustion signature evicts the slot, downgrades to CPU/fp32, and
re-issues the identical request exactly once. -/
theorem generate_clone_fallback (env : Backend) (s : EngineState)
    (text reference_audio_path : String) (reference_text : Option String)
    (language : String) (use_x_vector_only : Bool) (model_size msg : String)
    (s1 : EngineState) (tr1 : List Event)
    (h : s.device = Device.mps) (ht : isBlank text = false)
    (hA : clone_attempt env s text reference_audio_path reference_text language
      use_x_vector_only
      (if isSmallSize model_size then ModelType.base_small else ModelType.base)
      = (Except.error msg, s1, tr1))
    (hx : containsSub msg exhaustionSig = true) :
    generate_clone env s text reference_audio_path reference_text language
      use_x_vector_only model_size =
      ((generate_clone env
          (downgradeToSafe (unload_model s1 (if isSmallSize model_size then ModelType.base_small
              else ModelType.base)).1)
          text reference_audio_path reference_text language use_x_vector_only
          model_size).1,
       (generate_clone env
          (downgradeToSafe (unload_model s1 (if isSmallSize model_size then ModelType.base_small
              else ModelType.base)).1)
          text reference_audio_path reference_text language use_x_vector_only
          model_size).2.1,
       tr1 ++ (unload_model s1 (if isSmallSize model_size then ModelType.base_small
            else ModelType.base)).2 ++ [Event.retry] ++
         (generate_clone env
          (downgradeToSafe (unload_model s1 (if isSmallSize model_size then ModelType.base_small
              else ModelType.base)).1)
          text reference_audio_path reference_text language use_x_vector_only
          model_size).2.2) := by
  have hd := (clone_attempt_snd env s text reference_audio_path reference_text
      language use_x_vector_only
      (if isSmallSize model_size then ModelType.base_small else ModelType.base)).1
  rw [hA] at hd
  simp only [] at hd
  have hg : (s1.device == Device.mps) = true := by
    rw [hd, h]
    rfl
  have hrec := generate_clone_fuel_no_retry env 0 1
      (downgradeToSafe (unload_model s1 (if isSmallSize model_size then ModelType.base_small
          else ModelType.base)).1)
      text reference_audio_path reference_text language use_x_vector_only
      model_size (by simp)
  show generate_clone_fuel env (0+1+1) s text reference_audio_path reference_text
    language use_x_vector_only model_size = _
  conv_lhs => rw [generate_clone_fuel]
  simp [ht, hA, hg, hx, hrec, generate_clone]

/-- Writing then reading a slot yields the written value. -/
theorem Slots.get_set (s : Slots α) (mt : ModelType) (v : α) :
    (s.set mt v).get mt = v := by
  cases mt <;> rfl

/-- After eviction the slot of the evicted variant is empty. -/
theorem unload_clears (s : EngineState) (mt : ModelType) :
    ((unload_model s mt).1).models.get mt = none := by
  unfold unload_model
  cases hm : s.models.get mt <;> simp [hm, Slots.get_set]

theorem unload_genUses (sp ins : String) (s : EngineState) (mt : ModelType) :
    genUses sp ins ((unload_model s mt).2) = true := by
  unfold unload_model
  cases (s.models.get mt).isSome <;> simp [genUses]

theorem unload_dropWarn (s : EngineState) (mt : ModelType) :
    dropWarn ((unload_model s mt).2) = (unload_model s mt).2 := by
  unfold unload_model
  cases (s.models.get mt).isSome <;> simp [dropWarn]

/-- An unknown name resolves to the default preset plus a warning. -/
theorem resolvePreset_unknown (name : String)
    (h : dictGet presetCatalog name = none) :
    resolvePreset name =
      (deepMalePreset, [Event.warn ("Unknown preset " ++ name ++ ", using Deep Male")]) := by
  simp [resolvePreset, h]

/-- A known name resolves to its catalog record with no warning. -/
theorem resolvePreset_known (name : String) (p : VoicePreset)
    (h : dictGet presetCatalog name = some p) :
    resolvePreset name = (p, []) := by
  simp [resolvePreset, h]

theorem resolvePreset_deepMale : resolvePreset "Deep Male" = (deepMalePreset, []) := by
  rfl

/-- `generate_preset` is the fuel-2 run, with fuel written as `1+1`. -/
theorem generate_preset_def2 (env : Backend) (s : EngineState)
    (text preset_name language model_size : String) :
    generate_preset env s text preset_name language model_size =
    generate_preset_fuel env (1+1) s text preset_name language model_size := rfl

theorem generate_voice_design_def2 (env : Backend) (s : EngineState)
    (text voice_description language : String) :
    generate_voice_design env s text voice_description language =
    generate_voice_design_fuel env (1+1) s text voice_description language := rfl

theorem generate_clone_def2 (env : Backend) (s : EngineState)
    (text reference_audio_path : String) (reference_text : Option String)
    (language : String) (use_x_vector_only : Bool) (model_size : String) :
    generate_clone env s text reference_audio_path reference_text language
      use_x_vector_only model_size =
    generate_clone_fuel env (1+1) s text reference_audio_path reference_text language
      use_x_vector_only model_size := rfl

/-- `generate_preset` retries at most once, for every input. -/
theorem generate_preset_retry_le_one (env : Backend) (s : EngineState)
    (text preset_name language model_size : String) :
    retryCount ((generate_preset env s text preset_name language model_size).2.2) ≤ 1 := by
  have hres := resolvePreset_snd preset_name s.device s.dtype
  have hA := preset_attempt_snd env s text language
      (resolvePreset preset_name).1.speaker (resolvePreset preset_name).1.instruct
      (if isSmallSize model_size then ModelType.custom_voice_small
       else ModelType.custom_voice)
  show retryCount ((generate_preset_fuel env (0+1+1) s text preset_name language
      model_size).2.2) ≤ 1
  conv_lhs => rw [generate_preset_fuel]
  cases hBt : isBlank text
  case true => simp [hBt, retryCount]
  case false =>
    simp only [hBt, Bool.false_eq_true, if_false]
    split
    · next b s1 tr1 heq =>
        rw [heq] at hA
        simp only [] at hA
        simp [retryCount_append, hA.2.2.2.2.2.1, hres.1]
    · next msg s1 tr1 heq =>
        rw [heq] at hA
        simp only [] at hA
        split
        · next hc =>
            have hin := generate_preset_fuel_nomps_snd env 0
              (downgradeToSafe (unload_model s1 (if isSmallSize model_size then ModelType.custom_voice_small
                  else ModelType.custom_voice)).1)
              text preset_name language model_size (by simp)
            have hu := unload_model_snd s1
              (if isSmallSize model_size then ModelType.custom_voice_small
               else ModelType.custom_voice) s.device s.dtype
            simp [retryCount_append, hA.2.2.2.2.2.1, hres.1, hu.2.2.2.2.1,
              hin.2.2.2.2.2, retryCount_one_retry, retryCount_retry_cons]
        · next hc =>
            simp [retryCount_append, hA.2.2.2.2.2.1, hres.1]

/-- `generate_voice_design` retries at most once, for every input. -/
theorem generate_voice_design_retry_le_one (env : Backend) (s : EngineState)
    (text voice_description language : String) :
    retryCount ((generate_voice_design env s text voice_description language).2.2) ≤ 1 := by
  have hA := design_attempt_snd env s text voice_description language
  show retryCount ((generate_voice_design_fuel env (0+1+1) s text voice_description
      language).2.2) ≤ 1
  conv_lhs => rw [generate_voice_design_fuel]
  cases hBt : isBlank text
  case true => simp [hBt, retryCount]
  case false =>
    cases hBv : isBlank voice_description
    case true => simp [hBt, hBv, retryCount]
    case false =>
      simp only [hBt, hBv, Bool.false_eq_true, if_false]
      split
      · next b s1 tr1 heq =>
          rw [heq] at hA
          simp only [] at hA
          simp [hA.2.2.2.2.2.1]
      · next msg s1 tr1 heq =>
          rw [heq] at hA
          simp only [] at hA
          split
          · next hc =>
              have hin := generate_voice_design_fuel_nomps_snd env 0
                (downgradeToSafe (unload_model s1 ModelType.voice_design).1)
                text voice_description language (by simp)
              have hu := unload_model_snd s1 ModelType.voice_design s.device s.dtype
              simp [retryCount_append, hA.2.2.2.2.2.1, hu.2.2.2.2.1,
                hin.2.2.2.2.2, retryCount_one_retry, retryCount_retry_cons]
          · next hc =>
              simp [hA.2.2.2.2.2.1]

/-- `generate_clone` retries at most once, for every input. -/
theorem generate_clone_retry_le_one (env : Backend) (s : EngineState)
    (text reference_audio_path : String) (reference_text : Option String)
    (language : String) (use_x_vector_only : Bool) (model_size : String) :
    retryCount ((generate_clone env s text reference_audio_path reference_text
      language use_x_vector_only model_size).2.2) ≤ 1 := by
  have hA := clone_attempt_snd env s text reference_audio_path reference_text
      language use_x_vector_only
      (if isSmallSize model_size then ModelType.base_small else ModelType.base)
  show retryCount ((generate_clone_fuel env (0+1+1) s text reference_audio_path
      reference_text language use_x_vector_only model_size).2.2) ≤ 1
  conv_lhs => rw [generate_clone_fuel]
  cases hBt : isBlank text
  case true => simp [hBt, retryCount]
  case false =>
    simp only [hBt, Bool.false_eq_true, if_false]
    split
    · next b s1 tr1 heq =>
        rw [heq] at hA
        simp only [] at hA
        simp [hA.2.2.2.2.2.1]
    · next msg s1 tr1 heq =>
        rw [heq] at hA
        simp only [] at hA
        split
        · next hc =>
            have hin := generate_clone_fuel_nomps_snd env 0
              (downgradeToSafe (unload_model s1 (if isSmallSize model_size then ModelType.base_small
                  else ModelType.base)).1)
              text reference_audio_path reference_text language use_x_vector_only
              model_size (by simp)
            have hu := unload_model_snd s1
              (if isSmallSize model_size then ModelType.base_small else ModelType.base)
              s.device s.dtype
            simp [retryCount_append, hA.2.2.2.2.2.1, hu.2.2.2.2.1,
              hin.2.2.2.2.2, retryCount_one_retry, retryCount_retry_cons]
        · next hc =>
            simp [hA.2.2.2.2.2.1]

/-- Overwrite just the `use_small_models` flag. -/
def setFlag (s : EngineState) (b : Bool) : EngineState :=
  { s with use_small_models := b }

@[simp] theorem setFlag_device (s : EngineState) (b : Bool) :
    (setFlag s b).device = s.device := rfl

@[simp] theorem setFlag_dtype (s : EngineState) (b : Bool) :
    (setFlag s b).dtype = s.dtype := rfl

@[simp] theorem setFlag_models (s : EngineState) (b : Bool) :
    (setFlag s b).models = s.models := rfl

@[simp] theorem setFlag_errors (s : EngineState) (b : Bool) :
    (setFlag s b).model_load_errors = s.model_load_errors := rfl

@[simp] theorem setFlag_cache (s : EngineState) (b : Bool) :
    (setFlag s b).clone_prompt_cache = s.clone_prompt_cache := rfl

theorem unload_model_setFlag (s : EngineState) (mt : ModelType) (b : Bool) :
    unload_model (setFlag s b) mt =
      (setFlag (unload_model s mt).1 b, (unload_model s mt).2) := by
  unfold unload_model
  cases hm : s.models.get mt <;> simp [setFlag, hm, Slots.set]

theorem downgradeToSafe_setFlag (s : EngineState) (b : Bool) :
    downgradeToSafe (setFlag s b) = setFlag (downgradeToSafe s) b := rfl

theorem load_model_setFlag (env : Backend) (s : EngineState) (mt : ModelType) (b : Bool) :
    load_model env (setFlag s b) mt =
      ((load_model env s mt).1, setFlag (load_model env s mt).2.1 b,
       (load_model env s mt).2.2) := by
  rcases h : env.loadModel (get_model_id env mt) s.device s.dtype (attnFor env s.device)
    with e | m <;>
    simp [load_model, setFlag, h]

theorem get_model_setFlag (env : Backend) (s : EngineState) (mt : ModelType) (b : Bool) :
    get_model env (setFlag s b) mt =
      ((get_model env s mt).1, setFlag (get_model env s mt).2.1 b,
       (get_model env s mt).2.2) := by
  have hsf := load_model_setFlag env s mt b
  cases hm : s.models.get mt
  · rcases hl : load_model env s mt with ⟨r, s1, tr⟩
    rw [hl] at hsf
    cases r with
    | error e =>
        simp only [get_model, setFlag_models, hm, hsf, hl]
    | ok m =>
        simp only [get_model, setFlag_models, hm, hsf, hl]
        simp [setFlag]
  · simp only [get_model, setFlag_models, hm]

theorem preset_attempt_setFlag (env : Backend) (s : EngineState)
    (text language speaker instruct : String) (mt : ModelType) (b : Bool) :
    preset_attempt env (setFlag s b) text language speaker instruct mt =
      ((preset_attempt env s text language speaker instruct mt).1,
       setFlag (preset_attempt env s text language speaker instruct mt).2.1 b,
       (preset_attempt env s text language speaker instruct mt).2.2) := by
  have hsf := get_model_setFlag env s mt b
  rcases hG : get_model env s mt with ⟨r, s1, tr1⟩
  rw [hG] at hsf
  cases r with
  | error e => simp [preset_attempt, hG, hsf]
  | ok m =>
      rcases hx : env.genCustomVoice m text language speaker instruct with e | a <;>
        simp [preset_attempt, hG, hsf, hx]

theorem design_attempt_setFlag (env : Backend) (s : EngineState)
    (text voice_description language : String) (b : Bool) :
    design_attempt env (setFlag s b) text voice_description language =
      ((design_attempt env s text voice_description language).1,
       setFlag (design_attempt env s text voice_description language).2.1 b,
       (design_attempt env s text voice_description language).2.2) := by
  have hsf := get_model_setFlag env s ModelType.voice_design b
  rcases hG : get_model env s ModelType.voice_design with ⟨r, s1, tr1⟩
  rw [hG] at hsf
  cases r with
  | error e => simp [design_attempt, hG, hsf]
  | ok m =>
      rcases hx : env.genVoiceDesign m text language voice_description with e | a <;>
        simp [design_attempt, hG, hsf, hx]

theorem clone_attempt_setFlag (env : Backend) (s : EngineState)
    (text reference_audio_path : String) (reference_text : Option String)
    (language : String) (use_x_vector_only : Bool) (mt : ModelType) (b : Bool) :
    clone_attempt env (setFlag s b) text reference_audio_path reference_text
      language use_x_vector_only mt =
      ((clone_attempt env s text reference_audio_path reference_text language
          use_x_vector_only mt).1,
       setFlag (clone_attempt env s text reference_audio_path reference_text language
          use_x_vector_only mt).2.1 b,
       (clone_attempt env s text reference_audio_path reference_text language
          use_x_vector_only mt).2.2) := by
  have hsf := get_model_setFlag env s mt b
  rcases hG : get_model env s mt with ⟨r, s1, tr1⟩
  rw [hG] at hsf
  cases r with
  | error e => simp [clone_attempt, hG, hsf]
  | ok m =>
      cases hb : optTruthy reference_text && !use_x_vector_only
      case false =>
        rcases hp : env.makeClonePrompt m reference_audio_path none true with e | p
        · simp [clone_attempt, hG, hsf, hb, hp]
        · rcases hx : env.genClonePrompt m text language p with e | a <;>
            simp [clone_attempt, hG, hsf, hb, hp, hx]
      case true =>
        rcases hx : env.genCloneRef m text language reference_audio_path
            (reference_text.getD "") with e | a <;>
          simp [clone_attempt, hG, hsf, hb, hx]

theorem generate_preset_fuel_setFlag (env : Backend) (fuel : Nat) (s : EngineState)
    (text preset_name language model_size : String) (b : Bool) :
    generate_preset_fuel env fuel (setFlag s b) text preset_name language model_size =
      ((generate_preset_fuel env fuel s text preset_name language model_size).1,
       setFlag (generate_preset_fuel env fuel s text preset_name language model_size).2.1 b,
       (generate_preset_fuel env fuel s text preset_name language model_size).2.2) := by
  induction fuel generalizing s with
  | zero => simp [generate_preset_fuel]
  | succ n ih =>
      simp only [generate_preset_fuel]
      cases hBt : isBlank text
      case true => simp [hBt, setFlag]
      case false =>
        simp only [hBt, Bool.false_eq_true, if_false]
        have hsf := preset_attempt_setFlag env s text language
            (resolvePreset preset_name).1.speaker (resolvePreset preset_name).1.instruct
            (if isSmallSize model_size then ModelType.custom_voice_small
             else ModelType.custom_voice) b
        rcases hA : preset_attempt env s text language
            (resolvePreset preset_name).1.speaker (resolvePreset preset_name).1.instruct
            (if isSmallSize model_size then ModelType.custom_voice_small
             else ModelType.custom_voice) with ⟨r, s1, tr1⟩
        rw [hA] at hsf
        cases r with
        | ok v => simp [hsf, hA]
        | error msg =>
            simp only [hsf, hA]
            cases hc : containsSub msg exhaustionSig && s1.device == Device.mps
            case false => simp only [setFlag_device, hc, Bool.false_eq_true, if_false]
            case true =>
                simp only [setFlag_device, hc, if_true]
                rw [unload_model_setFlag, downgradeToSafe_setFlag, ih]

theorem generate_voice_design_fuel_setFlag (env : Backend) (fuel : Nat) (s : EngineState)
    (text voice_description language : String) (b : Bool) :
    generate_voice_design_fuel env fuel (setFlag s b) text voice_description language =
      ((generate_voice_design_fuel env fuel s text voice_description language).1,
       setFlag (generate_voice_design_fuel env fuel s text voice_description language).2.1 b,
       (generate_voice_design_fuel env fuel s text voice_description language).2.2) := by
  induction fuel generalizing s with
  | zero => simp [generate_voice_design_fuel]
  | succ n ih =>
      simp only [generate_voice_design_fuel]
      cases hBt : isBlank text
      case true => simp [hBt, setFlag]
      case false =>
        cases hBv : isBlank voice_description
        case true => simp [hBt, hBv, setFlag]
        case false =>
          simp only [hBt, hBv, Bool.false_eq_true, if_false]
          have hsf := design_attempt_setFlag env s text voice_description language b
          rcases hA : design_attempt env s text voice_description language
            with ⟨r, s1, tr1⟩
          rw [hA] at hsf
          cases r with
          | ok v => simp [hsf, hA]
          | error msg =>
              simp only [hsf, hA]
              cases hc : containsSub msg exhaustionSig && s1.device == Device.mps
              case false => simp only [setFlag_device, hc, Bool.false_eq_true, if_false]
              case true =>
                  simp only [setFlag_device, hc, if_true]
                  rw [unload_model_setFlag, downgradeToSafe_setFlag, ih]

theorem generate_clone_fuel_setFlag (env : Backend) (fuel : Nat) (s : EngineState)
    (text reference_audio_path : String) (reference_text : Option String)
    (language : String) (use_x_vector_only : Bool) (model_size : String) (b : Bool) :
    generate_clone_fuel env fuel (setFlag s b) text reference_audio_path reference_text
      language use_x_vector_only model_size =
      ((generate_clone_fuel env fuel s text reference_audio_path reference_text
          language use_x_vector_only model_size).1,
       setFlag (generate_clone_fuel env fuel s text reference_audio_path reference_text
          language use_x_vector_only model_size).2.1 b,
       (generate_clone_fuel env fuel s text reference_audio_path reference_text
          language use_x_vector_only model_size).2.2) := by
  induction fuel generalizing s with
  | zero => simp [generate_clone_fuel]
  | succ n ih =>
      simp only [generate_clone_fuel]
      cases hBt : isBlank text
      case true => simp [hBt, setFlag]
      case false =>
        simp only [hBt, Bool.false_eq_true, if_false]
        have hsf := clone_attempt_setFlag env s text reference_audio_path reference_text
            language use_x_vector_only
            (if isSmallSize model_size then ModelType.base_small else ModelType.base) b
        rcases hA : clone_attempt env s text reference_audio_path reference_text
            language use_x_vector_only
            (if isSmallSize model_size then ModelType.base_small else ModelType.base)
          with ⟨r, s1, tr1⟩
        rw [hA] at hsf
        cases r with
        | ok v => simp [hsf, hA]
        | error msg =>
            simp only [hsf, hA]
            cases hc : containsSub msg exhaustionSig && s1.device == Device.mps
            case false => simp only [setFlag_device, hc, Bool.false_eq_true, if_false]
            case true =>
                simp only [setFlag_device, hc, if_true]
                rw [unload_model_setFlag, downgradeToSafe_setFlag, ih]

theorem create_reusable_clone_prompt_setFlag (env : Backend) (s : EngineState)
    (reference_audio_path : String) (reference_text : Option String)
    (prompt_id : Option String) (b : Bool) :
    create_reusable_clone_prompt env (setFlag s b) reference_audio_path reference_text
      prompt_id =
      ((create_reusable_clone_prompt env s reference_audio_path reference_text
          prompt_id).1,
       setFlag (create_reusable_clone_prompt env s reference_audio_path reference_text
          prompt_id).2.1 b,
       (create_reusable_clone_prompt env s reference_audio_path reference_text
          prompt_id).2.2) := by
  have hsf := get_model_setFlag env s ModelType.base b
  rcases hG : get_model env s ModelType.base with ⟨r, s1, tr1⟩
  rw [hG] at hsf
  cases r with
  | error e => simp_all [create_reusable_clone_prompt, setFlag]
  | ok m =>
      rcases hp : env.makeClonePrompt m reference_audio_path reference_text
          reference_text.isNone with e | p <;>
        simp_all [create_reusable_clone_prompt, setFlag]

theorem generate_from_cached_clone_setFlag (env : Backend) (s : EngineState)
    (text prompt_id language : String) (b : Bool) :
    generate_from_cached_clone env (setFlag s b) text prompt_id language =
      ((generate_from_cached_clone env s text prompt_id language).1,
       setFlag (generate_from_cached_clone env s text prompt_id language).2.1 b,
       (generate_from_cached_clone env s text prompt_id language).2.2) := by
  have hsf := get_model_setFlag env s ModelType.base b
  cases hq : dictGet s.clone_prompt_cache prompt_id with
  | none => simp [generate_from_cached_clone, hq, setFlag]
  | some p =>
      rcases hG : get_model env s ModelType.base with ⟨r, s1, tr1⟩
      rw [hG] at hsf
      cases r with
      | error e => simp_all [generate_from_cached_clone, setFlag]
      | ok m =>
          rcases hx : env.genClonePrompt m text language p with e | a <;>
            simp_all [generate_from_cached_clone, setFlag]

theorem load_model_onlyBase (env : Backend) (s : EngineState) :
    onlyBase ((load_model env s ModelType.base).2.2) = true := by
  rcases h : env.loadModel (get_model_id env ModelType.base) s.device s.dtype
      (attnFor env s.device) with e | m <;>
    simp [load_model, h, onlyBase]

theorem get_model_onlyBase (env : Backend) (s : EngineState) :
    onlyBase ((get_model env s ModelType.base).2.2) = true := by
  unfold get_model
  cases hm : s.models.get ModelType.base
  · have h := load_model_onlyBase env s
    rcases hl : load_model env s ModelType.base with ⟨r, s1, tr⟩
    rw [hl] at h
    cases r <;> simp_all
  · simp [onlyBase]

/-- `create_reusable_clone_prompt` touches only the Base variant, keeps
device, precision and flag, and loads only on the current device. -/
theorem create_reusable_clone_prompt_snd (env : Backend) (s : EngineState)
    (reference_audio_path : String) (reference_text : Option String)
    (prompt_id : Option String) :
    ((create_reusable_clone_prompt env s reference_audio_path reference_text
        prompt_id).2.1).device = s.device ∧
    ((create_reusable_clone_prompt env s reference_audio_path reference_text
        prompt_id).2.1).dtype = s.dtype ∧
    ((create_reusable_clone_prompt env s reference_audio_path reference_text
        prompt_id).2.1).use_small_models = s.use_small_models ∧
    loadsOnB s.device s.dtype
      ((create_reusable_clone_prompt env s reference_audio_path reference_text
        prompt_id).2.2) = true ∧
    onlyBase ((create_reusable_clone_prompt env s reference_audio_path reference_text
        prompt_id).2.2) = true := by
  have hg := get_model_snd env s ModelType.base
  have hb := get_model_onlyBase env s
  rcases hG : get_model env s ModelType.base with ⟨r, s1, tr1⟩
  rw [hG] at hg hb
  simp only [] at hg hb
  obtain ⟨h1, h2, h3, h4, h5, h6⟩ := hg
  cases r with
  | error e => simp [create_reusable_clone_prompt, hG, h1, h2, h4, h5, hb]
  | ok m =>
      rcases hp : env.makeClonePrompt m reference_audio_path reference_text
          reference_text.isNone with e | p <;>
        simp_all [create_reusable_clone_prompt, loadsOnB_append, onlyBase_append,
          loadsOnB, onlyBase]

/-- `generate_from_cached_clone` touches only the Base variant, keeps
device, precision, prompt cache and flag, and loads only on the current
device. -/
theorem generate_from_cached_clone_snd (env : Backend) (s : EngineState)
    (text prompt_id language : String) :
    ((generate_from_cached_clone env s text prompt_id language).2.1).device
      = s.device ∧
    ((generate_from_cached_clone env s text prompt_id language).2.1).dtype
      = s.dtype ∧
    ((generate_from_cached_clone env s text prompt_id language).2.1).clone_prompt_cache
      = s.clone_prompt_cache ∧
    ((generate_from_cached_clone env s text prompt_id language).2.1).use_small_models
      = s.use_small_models ∧
    loadsOnB s.device s.dtype
      ((generate_from_cached_clone env s text prompt_id language).2.2) = true ∧
    onlyBase ((generate_from_cached_clone env s text prompt_id language).2.2)
      = true := by
  have hg := get_model_snd env s ModelType.base
  have hb := get_model_onlyBase env s
  rcases hG : get_model env s ModelType.base with ⟨r, s1, tr1⟩
  rw [hG] at hg hb
  simp only [] at hg hb
  obtain ⟨h1, h2, h3, h4, h5, h6⟩ := hg
  cases hq : dictGet s.clone_prompt_cache prompt_id with
  | none => simp [generate_from_cached_clone, hq, loadsOnB, onlyBase]
  | some p =>
      cases r with
      | error e => simp [generate_from_cached_clone, hq, hG, h1, h2, h3, h4, h5, hb]
      | ok m =>
          rcases hx : env.genClonePrompt m text language p with e | a <;>
            simp_all [generate_from_cached_clone, loadsOnB_append, onlyBase_append,
              loadsOnB, onlyBase]

@[simp] theorem unload_fst_device (s : EngineState) (mt : ModelType) :
    ((unload_model s mt).1).device = s.device := by
  unfold unload_model
  cases (s.models.get mt).isSome <;> simp

@[simp] theorem unload_fst_dtype (s : EngineState) (mt : ModelType) :
    ((unload_model s mt).1).dtype = s.dtype := by
  unfold unload_model
  cases (s.models.get mt).isSome <;> simp

@[simp] theorem unload_fst_cache (s : EngineState) (mt : ModelType) :
    ((unload_model s mt).1).clone_prompt_cache = s.clone_prompt_cache := by
  unfold unload_model
  cases (s.models.get mt).isSome <;> simp

@[simp] theorem unload_fst_flag (s : EngineState) (mt : ModelType) :
    ((unload_model s mt).1).use_small_models = s.use_small_models := by
  unfold unload_model
  cases (s.models.get mt).isSome <;> simp

@[simp] theorem unload_retryCount (s : EngineState) (mt : ModelType) :
    retryCount ((unload_model s mt).2) = 0 := by
  unfold unload_model
  cases (s.models.get mt).isSome <;> simp [retryCount]

@[simp] theorem unload_loadsOnB (d : Device) (dt : Dtype) (s : EngineState)
    (mt : ModelType) : loadsOnB d dt ((unload_model s mt).2) = true := by
  unfold unload_model
  cases (s.models.get mt).isSome <;> simp [loadsOnB]

/-- `unload_all_models` keeps device and precision and performs no load. -/
theorem unload_all_models_snd (s : EngineState) (d : Device) (dt : Dtype) :
    ((unload_all_models s).1).device = s.device ∧
    ((unload_all_models s).1).dtype = s.dtype ∧
    loadsOnB d dt ((unload_all_models s).2) = true := by
  simp [unload_all_models, ModelType.all, loadsOnB_append]

/-! Concrete fixtures used by counterexamples and witnesses. -/

/-- A fixed waveform returned by the succeeding backend oracles. -/
def audioA : Audio := ⟨[3, 1, 4], 24000⟩

/-- A backend with no accelerator where every call succeeds. -/
def envOk : Backend :=
  { mpsAvail := false, cudaAvail := false, flashAvail := false,
    localExists := fun _ => false, modelsDir := "models",
    loadModel := fun _ _ _ _ => Except.ok 7,
    genCustomVoice := fun _ _ _ _ _ => Except.ok audioA,
    genVoiceDesign := fun _ _ _ _ => Except.ok audioA,
    genCloneRef := fun _ _ _ _ _ => Except.ok audioA,
    genClonePrompt := fun _ _ _ _ => Except.ok audioA,
    makeClonePrompt := fun _ _ _ _ => Except.ok 3,
    md5hex := fun _ => "0123456789abcdef0123" }

/-- Engine started against `envOk`: safe CPU device. -/
def sOk : EngineState := init_state envOk "" false

/-- `sOk` with one cached clone prompt under id `pid`. -/
def sOkPrompt : EngineState := { sOk with clone_prompt_cache := [("pid", 5)] }

/-- A backend where only CUDA is available and every generation call
fails with the resource-exhaustion signature. -/
def envCudaBad : Backend :=
  { mpsAvail := false, cudaAvail := true, flashAvail := false,
    localExists := fun _ => false, modelsDir := "models",
    loadModel := fun _ _ _ _ => Except.ok 7,
    genCustomVoice := fun _ _ _ _ _ => Except.error "channels > 65536 limit",
    genVoiceDesign := fun _ _ _ _ => Except.error "channels > 65536 limit",
    genCloneRef := fun _ _ _ _ _ => Except.error "channels > 65536 limit",
    genClonePrompt := fun _ _ _ _ => Except.error "channels > 65536 limit",
    makeClonePrompt := fun _ _ _ _ => Except.ok 3,
    md5hex := fun _ => "0123456789abcdef0123" }

/-- Engine started against `envCudaBad`: CUDA device, bf16. -/
def sCudaBad : EngineState := init_state envCudaBad "" false

/-- A backend where only MPS is available and every generation call
fails with the resource-exhaustion signature. -/
def envMpsBad : Backend :=
  { mpsAvail := true, cudaAvail := false, flashAvail := false,
    localExists := fun _ => false, modelsDir := "models",
    loadModel := fun _ _ _ _ => Except.ok 7,
    genCustomVoice := fun _ _ _ _ _ => Except.error "channels > 65536 limit",
    genVoiceDesign := fun _ _ _ _ => Except.error "channels > 65536 limit",
    genCloneRef := fun _ _ _ _ _ => Except.error "channels > 65536 limit",
    genClonePrompt := fun _ _ _ _ => Except.error "channels > 65536 limit",
    makeClonePrompt := fun _ _ _ _ => Except.ok 3,
    md5hex := fun _ => "0123456789abcdef0123" }

/-- Engine started against `envMpsBad`: MPS device, fp32. -/
def sMpsBad : EngineState := init_state envMpsBad "" false

/-- `envOk` with a CPU-only generation failure (non-exhaustion message
kept distinct from the signature). -/
def envCpuBad : Backend :=
  { envOk with
    genCustomVoice := fun _ _ _ _ _ => Except.error "channels > 65536 limit",
    genVoiceDesign := fun _ _ _ _ => Except.error "channels > 65536 limit",
    genCloneRef := fun _ _ _ _ _ => Except.error "channels > 65536 limit",
    genClonePrompt := fun _ _ _ _ => Except.error "channels > 65536 limit" }

/-- Engine started against `envCpuBad`: safe CPU device. -/
def sCpuBad : EngineState := init_state envCpuBad "" false

/-- A backend where both accelerators report available. -/
def envBoth : Backend :=
  { envOk with mpsAvail := true, cudaAvail := true }

/-! The claims. -/

/-- C5, counterexample: the spec claims the startup probe prefers the
dedicated accelerator (CUDA, bf16) over the unified-memory accelerator,
but with both available the engine selects MPS with fp32. -/
theorem C5_counterexample :
    envBoth.mpsAvail = true ∧ envBoth.cudaAvail = true ∧
    init_device envBoth "" = (Device.mps, Dtype.float32) ∧
    init_device envBoth "" ≠ (Device.cuda, Dtype.bfloat16) := by
  decide

/-- C5, amended: with no override the probe order is MPS (fp32) first,
then CUDA (bf16), then CPU (fp32); the explicit CPU override forces
CPU/fp32; loads on MPS use scaled-dot-product attention. -/
theorem C5_device_resolution (env : Backend) (v : String) :
    (strToLower v = "cpu" → init_device env v = (Device.cpu, Dtype.float32)) ∧
    (strToLower v ≠ "cpu" → env.mpsAvail = true →
      init_device env v = (Device.mps, Dtype.float32)) ∧
    (strToLower v ≠ "cpu" → env.mpsAvail = false → env.cudaAvail = true →
      init_device env v = (Device.cuda, Dtype.bfloat16)) ∧
    (strToLower v ≠ "cpu" → env.mpsAvail = false → env.cudaAvail = false →
      init_device env v = (Device.cpu, Dtype.float32)) ∧
    attnFor env Device.mps = some AttnImpl.sdpa := by
  refine ⟨?_, ?_, ?_, ?_, rfl⟩ <;> intros <;> simp_all [init_device, attnFor]

theorem C5_device_resolution_witness :
    init_device envOk "CPU" = (Device.cpu, Dtype.float32) ∧
    init_device envBoth "" = (Device.mps, Dtype.float32) ∧
    init_device envCudaBad "" = (Device.cuda, Dtype.bfloat16) ∧
    init_device envOk "" = (Device.cpu, Dtype.float32) :=
  ⟨(C5_device_resolution envOk "CPU").1 (by decide),
   (C5_device_resolution envBoth "").2.1 (by decide) (by decide),
   (C5_device_resolution envCudaBad "").2.2.1 (by decide) (by decide) (by decide),
   (C5_device_resolution envOk "").2.2.2.1 (by decide) (by decide) (by decide)⟩

/-- C9: `get_status` is side-effect-free — it leaves the whole engine
state unchanged, emits no backend interaction (in particular no load),
and reports device, precision string, flag, loaded-flags, recorded load
errors, preset names and cached prompt ids straight from the state. -/
theorem C9_get_status_pure (s : EngineState) :
    (get_status s).2.1 = s ∧
    (get_status s).2.2 = [] ∧
    touchesBackend ((get_status s).2.2) = false ∧
    loadCount ((get_status s).2.2) = 0 ∧
    (get_status s).1.device = s.device ∧
    (get_status s).1.dtype = dtypeStr s.dtype ∧
    (get_status s).1.use_small_models = s.use_small_models ∧
    (get_status s).1.models_loaded = s.models.map Option.isSome ∧
    (get_status s).1.model_errors = s.model_load_errors.map Option.join ∧
    (get_status s).1.available_presets = dictKeys presetCatalog ∧
    (get_status s).1.cached_clone_prompts = dictKeys s.clone_prompt_cache := by
  simp [get_status, touchesBackend, loadCount]

/-- C3, counterexample: `generate_from_cached_clone` performs no text
validation — on whitespace-only text with a cached prompt it proceeds to
load the Base model and invoke generation instead of raising a
`ValueError` first. -/
theorem C3_counterexample :
    isBlank "   " = true ∧
    (generate_from_cached_clone envOk sOkPrompt "   " "pid" "Auto").1 =
      Except.ok (audio_to_bytes audioA) ∧
    touchesBackend
      ((generate_from_cached_clone envOk sOkPrompt "   " "pid" "Auto").2.2) = true := by
  decide

/-- C3, amended: `generate_preset`, `generate_voice_design` and
`generate_clone` reject empty or whitespace-only text with a
`ValueError` before any device or model interaction (state unchanged,
empty trace); `generate_from_cached_clone` performs no such check. -/
theorem C3_empty_text_validation (env : Backend) (s : EngineState)
    (text preset_name language model_size voice_description
      reference_audio_path : String)
    (reference_text : Option String) (use_x_vector_only : Bool)
    (h : isBlank text = true) :
    generate_preset env s text preset_name language model_size =
      (Except.error ⟨PyExcClass.ValueError, "Text cannot be empty"⟩, s, []) ∧
    generate_voice_design env s text voice_description language =
      (Except.error ⟨PyExcClass.ValueError, "Text cannot be empty"⟩, s, []) ∧
    generate_clone env s text reference_audio_path reference_text language
        use_x_vector_only model_size =
      (Except.error ⟨PyExcClass.ValueError, "Text cannot be empty"⟩, s, []) := by
  refine ⟨?_, ?_, ?_⟩
  · show generate_preset_fuel env (0+1+1) s text preset_name language model_size = _
    conv_lhs => rw [generate_preset_fuel]
    simp [h]
  · show generate_voice_design_fuel env (0+1+1) s text voice_description language = _
    conv_lhs => rw [generate_voice_design_fuel]
    simp [h]
  · show generate_clone_fuel env (0+1+1) s text reference_audio_path reference_text
      language use_x_vector_only model_size = _
    conv_lhs => rw [generate_clone_fuel]
    simp [h]

theorem C3_empty_text_validation_witness :
    generate_preset envOk sOk "  " "Deep Male" "Auto" "1.7B" =
      (Except.error ⟨PyExcClass.ValueError, "Text cannot be empty"⟩, sOk, []) ∧
    generate_voice_design envOk sOk "  " "a deep voice" "Auto" =
      (Except.error ⟨PyExcClass.ValueError, "Text cannot be empty"⟩, sOk, []) ∧
    generate_clone envOk sOk "  " "ref.wav" none "Auto" false "1.7B" =
      (Except.error ⟨PyExcClass.ValueError, "Text cannot be empty"⟩, sOk, []) :=
  C3_empty_text_validation envOk sOk "  " "Deep Male" "Auto" "1.7B"
    "a deep voice" "ref.wav" none false (by decide)

/-- C4, counterexample: the unknown-prompt-id error of
`generate_from_cached_clone` and the empty-text error of
`generate_preset` are the same Python exception class (`ValueError`), so
the four spec error kinds are not mutually distinct types. -/
theorem C4_counterexample :
    (generate_from_cached_clone envOk sOk "hello" "nope" "Auto").1 =
      Except.error ⟨PyExcClass.ValueError, "Clone prompt nope not found in cache"⟩ ∧
    (generate_preset envOk sOk "" "Deep Male" "Auto" "1.7B").1 =
      Except.error ⟨PyExcClass.ValueError, "Text cannot be empty"⟩ := by
  decide

/-- C4, amended: the engine distinguishes errors by exactly two Python
exception classes: `ValueError` covers both validation failures and
unknown cached-prompt ids (same type, different message), and
`RuntimeError` covers both model-load failures and terminal generation
failures. -/
theorem C4_error_classes :
    (∀ (env : Backend) (s : EngineState) (text pid lang : String),
      dictGet s.clone_prompt_cache pid = none →
      (generate_from_cached_clone env s text pid lang).1 =
        Except.error ⟨PyExcClass.ValueError,
          "Clone prompt " ++ pid ++ " not found in cache"⟩) ∧
    (∀ (env : Backend) (s : EngineState) (text pn lang ms : String),
      isBlank text = true →
      (generate_preset env s text pn lang ms).1 =
        Except.error ⟨PyExcClass.ValueError, "Text cannot be empty"⟩) ∧
    (∀ (env : Backend) (s : EngineState) (mt : ModelType) (e : String),
      env.loadModel (get_model_id env mt) s.device s.dtype (attnFor env s.device) =
        Except.error e →
      (load_model env s mt).1 =
        Except.error ⟨PyExcClass.RuntimeError,
          "Failed to load " ++ modelTypeValue mt ++ " model: " ++ e⟩) ∧
    (∀ (env : Backend) (s : EngineState) (text pn lang ms msg : String)
      (s1 : EngineState) (tr1 : List Event),
      s.device ≠ Device.mps → isBlank text = false →
      preset_attempt env s text lang (resolvePreset pn).1.speaker
        (resolvePreset pn).1.instruct
        (if isSmallSize ms then ModelType.custom_voice_small
         else ModelType.custom_voice) = (Except.error msg, s1, tr1) →
      (generate_preset env s text pn lang ms).1 =
        Except.error ⟨PyExcClass.RuntimeError,
          "Speech generation failed: " ++ msg⟩) := by
  refine ⟨?_, ?_, ?_, ?_⟩
  · intro env s text pid lang hq
    simp [generate_from_cached_clone, hq]
  · intro env s text pn lang ms h
    show (generate_preset_fuel env (0+1+1) s text pn lang ms).1 = _
    conv_lhs => rw [generate_preset_fuel]
    simp [h]
  · intro env s mt e h
    simp [load_model, h]
  · intro env s text pn lang ms msg s1 tr1 h ht hA
    rw [generate_preset_terminal env s text pn lang ms msg s1 tr1 h ht hA]

theorem C4_error_classes_witness :
    (generate_from_cached_clone envOk sOk "hello" "nope" "Auto").1 =
      Except.error ⟨PyExcClass.ValueError,
        "Clone prompt nope not found in cache"⟩ ∧
    (generate_preset envCpuBad sCpuBad "hi" "Deep Male" "Auto" "1.7B").1 =
      Except.error ⟨PyExcClass.RuntimeError,
        "Speech generation failed: channels > 65536 limit"⟩ :=
  ⟨C4_error_classes.1 envOk sOk "hello" "nope" "Auto" (by decide),
   C4_error_classes.2.2.2 envCpuBad sCpuBad "hi" "Deep Male" "Auto" "1.7B"
     "channels > 65536 limit"
     { sCpuBad with
        models := (Slots.const none).set ModelType.custom_voice (some 7),
        model_load_errors := (Slots.const none).set ModelType.custom_voice (some none) }
     [Event.loadCall ModelType.custom_voice Device.cpu Dtype.float32 none,
      Event.genCustomVoice "hi" "Auto" "Ryan"
        "Speak in a deep, calm, authoritative tone."]
     (by decide) (by decide) (by decide)⟩

/-- C8: accessing a variant twice in sequence calls the backend loader
exactly once — the first access loads and caches the instance, the
second returns the cached handle with no backend interaction at all. -/
theorem C8_load_once (env : Backend) (s : EngineState) (mt : ModelType) (m : Model)
    (h0 : s.models.get mt = none)
    (h : env.loadModel (get_model_id env mt) s.device s.dtype (attnFor env s.device) =
      Except.ok m) :
    (get_model env s mt).1 = Except.ok m ∧
    loadCount ((get_model env s mt).2.2) = 1 ∧
    (get_model env (get_model env s mt).2.1 mt).1 = Except.ok m ∧
    (get_model env (get_model env s mt).2.1 mt).2.1 = (get_model env s mt).2.1 ∧
    (get_model env (get_model env s mt).2.1 mt).2.2 = [] ∧
    loadCount ((get_model env s mt).2.2 ++
      (get_model env (get_model env s mt).2.1 mt).2.2) = 1 := by
  simp [get_model, load_model, h0, h, Slots.get_set, loadCount]

theorem C8_load_once_witness :
    (get_model envOk sOk ModelType.custom_voice).1 = Except.ok 7 ∧
    loadCount ((get_model envOk sOk ModelType.custom_voice).2.2) = 1 ∧
    (get_model envOk (get_model envOk sOk ModelType.custom_voice).2.1
      ModelType.custom_voice).1 = Except.ok 7 ∧
    (get_model envOk (get_model envOk sOk ModelType.custom_voice).2.1
      ModelType.custom_voice).2.1 = (get_model envOk sOk ModelType.custom_voice).2.1 ∧
    (get_model envOk (get_model envOk sOk ModelType.custom_voice).2.1
      ModelType.custom_voice).2.2 = [] ∧
    loadCount ((get_model envOk sOk ModelType.custom_voice).2.2 ++
      (get_model envOk (get_model envOk sOk ModelType.custom_voice).2.1
        ModelType.custom_voice).2.2) = 1 :=
  C8_load_once envOk sOk ModelType.custom_voice 7 (by decide) (by decide)

/-- An unknown preset name behaves exactly like the default name
`"Deep Male"` up to the logged warnings, at every fuel. -/
theorem generate_preset_fuel_unknown (env : Backend) (fuel : Nat) (s : EngineState)
    (text name language model_size : String)
    (h : dictGet presetCatalog name = none) :
    (generate_preset_fuel env fuel s text name language model_size).1 =
      (generate_preset_fuel env fuel s text "Deep Male" language model_size).1 ∧
    (generate_preset_fuel env fuel s text name language model_size).2.1 =
      (generate_preset_fuel env fuel s text "Deep Male" language model_size).2.1 ∧
    dropWarn ((generate_preset_fuel env fuel s text name language model_size).2.2) =
      dropWarn ((generate_preset_fuel env fuel s text "Deep Male" language
        model_size).2.2) := by
  induction fuel generalizing s with
  | zero => simp [generate_preset_fuel]
  | succ n ih =>
      simp only [generate_preset_fuel, resolvePreset_unknown name h,
        resolvePreset_deepMale]
      cases hBt : isBlank text
      case true => simp [hBt]
      case false =>
        simp only [hBt, Bool.false_eq_true, if_false]
        rcases hA : preset_attempt env s text language deepMalePreset.speaker
            deepMalePreset.instruct
            (if isSmallSize model_size then ModelType.custom_voice_small
             else ModelType.custom_voice) with ⟨r, s1, tr1⟩
        have hW := (preset_attempt_snd env s text language deepMalePreset.speaker
            deepMalePreset.instruct
            (if isSmallSize model_size then ModelType.custom_voice_small
             else ModelType.custom_voice)).2.2.2.2.2.2.1
        rw [hA] at hW
        simp only [] at hW
        cases r with
        | ok v => simp [hA, dropWarn_append, dropWarn, hW]
        | error msg =>
            simp only [hA]
            cases hc : containsSub msg exhaustionSig && s1.device == Device.mps
            case false =>
                simp [hc, dropWarn_append, dropWarn, hW]
            case true =>
                have hrec := ih (downgradeToSafe
                  (unload_model s1 (if isSmallSize model_size
                    then ModelType.custom_voice_small
                    else ModelType.custom_voice)).1)
                simp [hc, dropWarn_append, dropWarn_warn_cons, dropWarn_retry_cons,
                  dropWarn_nil, hW, hrec.1, hrec.2.1, hrec.2.2, unload_dropWarn]

/-- A known preset name drives every generation call with that preset
record, at every fuel. -/
theorem generate_preset_fuel_known (env : Backend) (fuel : Nat) (s : EngineState)
    (text name language model_size : String) (p : VoicePreset)
    (h : dictGet presetCatalog name = some p) :
    genUses p.speaker p.instruct
      ((generate_preset_fuel env fuel s text name language model_size).2.2) = true := by
  induction fuel generalizing s with
  | zero => simp [generate_preset_fuel, genUses]
  | succ n ih =>
      simp only [generate_preset_fuel, resolvePreset_known name p h]
      cases hBt : isBlank text
      case true => simp [hBt, genUses]
      case false =>
        simp only [hBt, Bool.false_eq_true, if_false]
        rcases hA : preset_attempt env s text language p.speaker p.instruct
            (if isSmallSize model_size then ModelType.custom_voice_small
             else ModelType.custom_voice) with ⟨r, s1, tr1⟩
        have hU := (preset_attempt_snd env s text language p.speaker p.instruct
            (if isSmallSize model_size then ModelType.custom_voice_small
             else ModelType.custom_voice)).2.2.2.2.2.2.2
        rw [hA] at hU
        simp only [] at hU
        cases r with
        | ok v => simp [hA, genUses_append, hU]
        | error msg =>
            simp only [hA]
            cases hc : containsSub msg exhaustionSig && s1.device == Device.mps
            case false => simp [hc, genUses_append, hU]
            case true =>
                have hrec := ih (downgradeToSafe
                  (unload_model s1 (if isSmallSize model_size
                    then ModelType.custom_voice_small
                    else ModelType.custom_voice)).1)
                simp [hc, genUses_append, genUses_retry_cons, hU, hrec,
                  unload_genUses]

/-- An unknown preset name records a warning whenever validation passes. -/
theorem generate_preset_fuel_unknown_warns (env : Backend) (n : Nat) (s : EngineState)
    (text name language model_size : String)
    (h : dictGet presetCatalog name = none) (ht : isBlank text = false) :
    Event.warn ("Unknown preset " ++ name ++ ", using Deep Male") ∈
      (generate_preset_fuel env (n+1) s text name language model_size).2.2 := by
  simp only [generate_preset_fuel, resolvePreset_unknown name h, ht,
    Bool.false_eq_true, if_false]
  split
  · simp
  · split <;> simp

/-- C7: an unknown preset name does not raise — `generate_preset`
behaves exactly as with the default name `"Deep Male"` (same result and
same final state, traces equal once warnings are dropped) and records an
unknown-preset warning; a known name drives every generation call with
that preset record (its speaker and style instruction). -/
theorem C7_preset_default_fallback :
    (∀ (env : Backend) (s : EngineState) (text name language model_size : String),
      dictGet presetCatalog name = none → isBlank text = false →
      ((generate_preset env s text name language model_size).1 =
        (generate_preset env s text "Deep Male" language model_size).1 ∧
       (generate_preset env s text name language model_size).2.1 =
        (generate_preset env s text "Deep Male" language model_size).2.1 ∧
       dropWarn ((generate_preset env s text name language model_size).2.2) =
        dropWarn ((generate_preset env s text "Deep Male" language model_size).2.2) ∧
       Event.warn ("Unknown preset " ++ name ++ ", using Deep Male") ∈
        (generate_preset env s text name language model_size).2.2)) ∧
    (∀ (env : Backend) (s : EngineState) (text name language model_size : String)
      (p : VoicePreset),
      dictGet presetCatalog name = some p →
      genUses p.speaker p.instruct
        ((generate_preset env s text name language model_size).2.2) = true) := by
  constructor
  · intro env s text name language model_size h ht
    have hu := generate_preset_fuel_unknown env (1+1) s text name language model_size h
    refine ⟨?_, ?_, ?_, ?_⟩
    · rw [generate_preset_def2, generate_preset_def2]
      exact hu.1
    · rw [generate_preset_def2, generate_preset_def2]
      exact hu.2.1
    · rw [generate_preset_def2, generate_preset_def2]
      exact hu.2.2
    · rw [generate_preset_def2]
      exact generate_preset_fuel_unknown_warns env 1 s text name language model_size h ht
  · intro env s text name language model_size p h
    rw [generate_preset_def2]
    exact generate_preset_fuel_known env (1+1) s text name language model_size p h

theorem C7_preset_default_fallback_witness :
    ((generate_preset envOk sOk "hi" "Wizard King" "Auto" "1.7B").1 =
      (generate_preset envOk sOk "hi" "Deep Male" "Auto" "1.7B").1 ∧
     (generate_preset envOk sOk "hi" "Wizard King" "Auto" "1.7B").2.1 =
      (generate_preset envOk sOk "hi" "Deep Male" "Auto" "1.7B").2.1 ∧
     dropWarn ((generate_preset envOk sOk "hi" "Wizard King" "Auto" "1.7B").2.2) =
      dropWarn ((generate_preset envOk sOk "hi" "Deep Male" "Auto" "1.7B").2.2) ∧
     Event.warn ("Unknown preset " ++ "Wizard King" ++ ", using Deep Male") ∈
      (generate_preset envOk sOk "hi" "Wizard King" "Auto" "1.7B").2.2) ∧
    genUses newsAnchorPreset.speaker newsAnchorPreset.instruct
      ((generate_preset envOk sOk "hi" "News Anchor" "Auto" "1.7B").2.2) = true :=
  ⟨C7_preset_default_fallback.1 envOk sOk "hi" "Wizard King" "Auto" "1.7B"
     (by decide) (by decide),
   C7_preset_default_fallback.2 envOk sOk "hi" "News Anchor" "Auto" "1.7B"
     newsAnchorPreset (by decide)⟩

/-- C6: once the engine is on the safe CPU device with fp32 — whether by
startup override, probe result, or a fallback downgrade — no operation
moves it back to an accelerator, and every backend load performed by any
operation observes device CPU and dtype fp32. -/
theorem C6_safe_device_sticky (env : Backend) (s : EngineState)
    (text preset_name language model_size voice_description reference_audio_path
      cached_text cached_id : String)
    (reference_text : Option String) (prompt_id : Option String)
    (use_x_vector_only : Bool) (mt : ModelType)
    (h : s.device = Device.cpu) (h2 : s.dtype = Dtype.float32) :
    (((generate_preset env s text preset_name language model_size).2.1).device
        = Device.cpu ∧
     ((generate_preset env s text preset_name language model_size).2.1).dtype
        = Dtype.float32 ∧
     loadsOnB Device.cpu Dtype.float32
       ((generate_preset env s text preset_name language model_size).2.2) = true) ∧
    (((generate_voice_design env s text voice_description language).2.1).device
        = Device.cpu ∧
     ((generate_voice_design env s text voice_description language).2.1).dtype
        = Dtype.float32 ∧
     loadsOnB Device.cpu Dtype.float32
       ((generate_voice_design env s text voice_description language).2.2) = true) ∧
    (((generate_clone env s text reference_audio_path reference_text language
          use_x_vector_only model_size).2.1).device = Device.cpu ∧
     ((generate_clone env s text reference_audio_path reference_text language
          use_x_vector_only model_size).2.1).dtype = Dtype.float32 ∧
     loadsOnB Device.cpu Dtype.float32
       ((generate_clone env s text reference_audio_path reference_text language
          use_x_vector_only model_size).2.2) = true) ∧
    (((create_reusable_clone_prompt env s reference_audio_path reference_text
          prompt_id).2.1).device = Device.cpu ∧
     ((create_reusable_clone_prompt env s reference_audio_path reference_text
          prompt_id).2.1).dtype = Dtype.float32 ∧
     loadsOnB Device.cpu Dtype.float32
       ((create_reusable_clone_prompt env s reference_audio_path reference_text
          prompt_id).2.2) = true) ∧
    (((generate_from_cached_clone env s cached_text cached_id language).2.1).device
        = Device.cpu ∧
     ((generate_from_cached_clone env s cached_text cached_id language).2.1).dtype
        = Dtype.float32 ∧
     loadsOnB Device.cpu Dtype.float32
       ((generate_from_cached_clone env s cached_text cached_id language).2.2)
        = true) ∧
    (((get_status s).2.1).device = Device.cpu ∧
     ((get_status s).2.1).dtype = Dtype.float32 ∧
     loadsOnB Device.cpu Dtype.float32 ((get_status s).2.2) = true) ∧
    (((unload_model s mt).1).device = Device.cpu ∧
     ((unload_model s mt).1).dtype = Dtype.float32 ∧
     loadsOnB Device.cpu Dtype.float32 ((unload_model s mt).2) = true) ∧
    (((unload_all_models s).1).device = Device.cpu ∧
     ((unload_all_models s).1).dtype = Dtype.float32 ∧
     loadsOnB Device.cpu Dtype.float32 ((unload_all_models s).2) = true) := by
  refine ⟨?_, ?_, ?_, ?_, ?_, ?_, ?_, ?_⟩
  · have hp := generate_preset_fuel_nomps_snd env 1 s text preset_name language
      model_size (by simp [h])
    rw [h, h2] at hp
    rw [generate_preset_def2]
    exact ⟨hp.1, hp.2.1, hp.2.2.2.2.1⟩
  · have hp := generate_voice_design_fuel_nomps_snd env 1 s text voice_description
      language (by simp [h])
    rw [h, h2] at hp
    rw [generate_voice_design_def2]
    exact ⟨hp.1, hp.2.1, hp.2.2.2.2.1⟩
  · have hp := generate_clone_fuel_nomps_snd env 1 s text reference_audio_path
      reference_text language use_x_vector_only model_size (by simp [h])
    rw [h, h2] at hp
    rw [generate_clone_def2]
    exact ⟨hp.1, hp.2.1, hp.2.2.2.2.1⟩
  · have hp := create_reusable_clone_prompt_snd env s reference_audio_path
      reference_text prompt_id
    rw [h, h2] at hp
    exact ⟨hp.1, hp.2.1, hp.2.2.2.1⟩
  · have hp := generate_from_cached_clone_snd env s cached_text cached_id language
    rw [h, h2] at hp
    exact ⟨hp.1, hp.2.1, hp.2.2.2.2.1⟩
  · exact ⟨by simp [get_status, h], by simp [get_status, h2], by simp [get_status, loadsOnB]⟩
  · exact ⟨by simp [h], by simp [h2], by simp⟩
  · have hp := unload_all_models_snd s Device.cpu Dtype.float32
    exact ⟨hp.1.trans h, hp.2.1.trans h2, hp.2.2⟩

theorem C6_safe_device_sticky_witness :
    ((generate_preset envCpuBad sCpuBad "hi" "Deep Male" "Auto" "1.7B").2.1).device
      = Device.cpu ∧
    ((generate_preset envCpuBad sCpuBad "hi" "Deep Male" "Auto" "1.7B").2.1).dtype
      = Dtype.float32 ∧
    loadsOnB Device.cpu Dtype.float32
      ((generate_preset envCpuBad sCpuBad "hi" "Deep Male" "Auto" "1.7B").2.2) = true :=
  (C6_safe_device_sticky envCpuBad sCpuBad "hi" "Deep Male" "Auto" "1.7B" "d" "r"
    "t" "p" none none false ModelType.base (by decide) (by decide)).1

/-- C10: the constructor flag `use_small_models` is never consulted by
any generation or prompt operation — flipping it changes no result, no
trace and nothing else in the state; and the prompt operations
(`create_reusable_clone_prompt`, `generate_from_cached_clone`) always
work through the 1.7B Base variant regardless of the flag or of any
model-size setting. -/
theorem C10_small_models_flag_unused (env : Backend) (s : EngineState) (b : Bool)
    (text preset_name language model_size voice_description reference_audio_path
      cached_text cached_id : String)
    (reference_text : Option String) (prompt_id : Option String)
    (use_x_vector_only : Bool) :
    generate_preset env (setFlag s b) text preset_name language model_size =
      ((generate_preset env s text preset_name language model_size).1,
       setFlag (generate_preset env s text preset_name language model_size).2.1 b,
       (generate_preset env s text preset_name language model_size).2.2) ∧
    generate_voice_design env (setFlag s b) text voice_description language =
      ((generate_voice_design env s text voice_description language).1,
       setFlag (generate_voice_design env s text voice_description language).2.1 b,
       (generate_voice_design env s text voice_description language).2.2) ∧
    generate_clone env (setFlag s b) text reference_audio_path reference_text
        language use_x_vector_only model_size =
      ((generate_clone env s text reference_audio_path reference_text language
          use_x_vector_only model_size).1,
       setFlag (generate_clone env s text reference_audio_path reference_text
          language use_x_vector_only model_size).2.1 b,
       (generate_clone env s text reference_audio_path reference_text language
          use_x_vector_only model_size).2.2) ∧
    create_reusable_clone_prompt env (setFlag s b) reference_audio_path
        reference_text prompt_id =
      ((create_reusable_clone_prompt env s reference_audio_path reference_text
          prompt_id).1,
       setFlag (create_reusable_clone_prompt env s reference_audio_path
          reference_text prompt_id).2.1 b,
       (create_reusable_clone_prompt env s reference_audio_path reference_text
          prompt_id).2.2) ∧
    generate_from_cached_clone env (setFlag s b) cached_text cached_id language =
      ((generate_from_cached_clone env s cached_text cached_id language).1,
       setFlag (generate_from_cached_clone env s cached_text cached_id language).2.1 b,
       (generate_from_cached_clone env s cached_text cached_id language).2.2) ∧
    onlyBase ((create_reusable_clone_prompt env s reference_audio_path reference_text
        prompt_id).2.2) = true ∧
    onlyBase ((generate_from_cached_clone env s cached_text cached_id
        language).2.2) = true := by
  refine ⟨?_, ?_, ?_, ?_, ?_, ?_, ?_⟩
  · simp only [generate_preset_def2]
    exact generate_preset_fuel_setFlag env (1+1) s text preset_name language
      model_size b
  · simp only [generate_voice_design_def2]
    exact generate_voice_design_fuel_setFlag env (1+1) s text voice_description
      language b
  · simp only [generate_clone_def2]
    exact generate_clone_fuel_setFlag env (1+1) s text reference_audio_path
      reference_text language use_x_vector_only model_size b
  · exact create_reusable_clone_prompt_setFlag env s reference_audio_path
      reference_text prompt_id b
  · exact generate_from_cached_clone_setFlag env s cached_text cached_id language b
  · exact (create_reusable_clone_prompt_snd env s reference_audio_path
      reference_text prompt_id).2.2.2.2
  · exact (generate_from_cached_clone_snd env s cached_text cached_id
      language).2.2.2.2.2

/-- C2: the fallback retry is bounded — every generation operation
retries at most once for every input; and on the safe CPU device a
failing attempt (in particular a second exhaustion failure after a
downgrade) surfaces directly as a terminal `RuntimeError`, with no
further eviction, downgrade or retry. -/
theorem C2_bounded_retry :
    (∀ (env : Backend) (s : EngineState) (text pn lang ms : String),
      retryCount ((generate_preset env s text pn lang ms).2.2) ≤ 1) ∧
    (∀ (env : Backend) (s : EngineState) (text vd lang : String),
      retryCount ((generate_voice_design env s text vd lang).2.2) ≤ 1) ∧
    (∀ (env : Backend) (s : EngineState) (text ra : String) (rt : Option String)
      (lang : String) (ux : Bool) (ms : String),
      retryCount ((generate_clone env s text ra rt lang ux ms).2.2) ≤ 1) ∧
    (∀ (env : Backend) (s : EngineState) (text pn lang ms msg : String),
      s.device = Device.cpu → isBlank text = false →
      (preset_attempt env s text lang (resolvePreset pn).1.speaker
        (resolvePreset pn).1.instruct
        (if isSmallSize ms then ModelType.custom_voice_small
         else ModelType.custom_voice)).1 = Except.error msg →
      generate_preset env s text pn lang ms =
        (Except.error ⟨PyExcClass.RuntimeError, "Speech generation failed: " ++ msg⟩,
         (preset_attempt env s text lang (resolvePreset pn).1.speaker
           (resolvePreset pn).1.instruct
           (if isSmallSize ms then ModelType.custom_voice_small
            else ModelType.custom_voice)).2.1,
         (resolvePreset pn).2 ++
           (preset_attempt env s text lang (resolvePreset pn).1.speaker
             (resolvePreset pn).1.instruct
             (if isSmallSize ms then ModelType.custom_voice_small
              else ModelType.custom_voice)).2.2) ∧
      retryCount ((generate_preset env s text pn lang ms).2.2) = 0) ∧
    (∀ (env : Backend) (s : EngineState) (text vd lang msg : String),
      s.device = Device.cpu → isBlank text = false → isBlank vd = false →
      (design_attempt env s text vd lang).1 = Except.error msg →
      generate_voice_design env s text vd lang =
        (Except.error ⟨PyExcClass.RuntimeError, "Voice design failed: " ++ msg⟩,
         (design_attempt env s text vd lang).2.1,
         (design_attempt env s text vd lang).2.2) ∧
      retryCount ((generate_voice_design env s text vd lang).2.2) = 0) ∧
    (∀ (env : Backend) (s : EngineState) (text ra : String) (rt : Option String)
      (lang : String) (ux : Bool) (ms msg : String),
      s.device = Device.cpu → isBlank text = false →
      (clone_attempt env s text ra rt lang ux
        (if isSmallSize ms then ModelType.base_small else ModelType.base)).1 =
        Except.error msg →
      generate_clone env s text ra rt lang ux ms =
        (Except.error ⟨PyExcClass.RuntimeError, "Voice cloning failed: " ++ msg⟩,
         (clone_attempt env s text ra rt lang ux
           (if isSmallSize ms then ModelType.base_small else ModelType.base)).2.1,
         (clone_attempt env s text ra rt lang ux
           (if isSmallSize ms then ModelType.base_small else ModelType.base)).2.2) ∧
      retryCount ((generate_clone env s text ra rt lang ux ms).2.2) = 0) := by
  refine ⟨generate_preset_retry_le_one, generate_voice_design_retry_le_one,
    generate_clone_retry_le_one, ?_, ?_, ?_⟩
  · intro env s text pn lang ms msg hcpu ht hF
    rcases hA : preset_attempt env s text lang (resolvePreset pn).1.speaker
        (resolvePreset pn).1.instruct
        (if isSmallSize ms then ModelType.custom_voice_small
         else ModelType.custom_voice) with ⟨r, s1, tr1⟩
    rw [hA] at hF
    simp only [] at hF
    subst hF
    have heq := generate_preset_terminal env s text pn lang ms msg s1 tr1
      (by simp [hcpu]) ht hA
    refine ⟨by simpa using heq, ?_⟩
    have hres := resolvePreset_snd pn s.device s.dtype
    have hS := (preset_attempt_snd env s text lang (resolvePreset pn).1.speaker
        (resolvePreset pn).1.instruct
        (if isSmallSize ms then ModelType.custom_voice_small
         else ModelType.custom_voice)).2.2.2.2.2.1
    rw [hA] at hS
    simp only [] at hS
    rw [heq]
    simp [retryCount_append, hres.1, hS]
  · intro env s text vd lang msg hcpu ht hv hF
    rcases hA : design_attempt env s text vd lang with ⟨r, s1, tr1⟩
    rw [hA] at hF
    simp only [] at hF
    subst hF
    have heq := generate_voice_design_terminal env s text vd lang msg s1 tr1
      (by simp [hcpu]) ht hv hA
    refine ⟨by simpa using heq, ?_⟩
    have hS := (design_attempt_snd env s text vd lang).2.2.2.2.2.1
    rw [hA] at hS
    simp only [] at hS
    rw [heq]
    simp [hS]
  · intro env s text ra rt lang ux ms msg hcpu ht hF
    rcases hA : clone_attempt env s text ra rt lang ux
        (if isSmallSize ms then ModelType.base_small else ModelType.base)
      with ⟨r, s1, tr1⟩
    rw [hA] at hF
    simp only [] at hF
    subst hF
    have heq := generate_clone_terminal env s text ra rt lang ux ms msg s1 tr1
      (by simp [hcpu]) ht hA
    refine ⟨by simpa using heq, ?_⟩
    have hS := (clone_attempt_snd env s text ra rt lang ux
        (if isSmallSize ms then ModelType.base_small else ModelType.base)).2.2.2.2.2.1
    rw [hA] at hS
    simp only [] at hS
    rw [heq]
    simp [hS]

theorem C2_bounded_retry_witness :
    retryCount ((generate_preset envMpsBad sMpsBad "hi" "Deep Male" "Auto"
      "1.7B").2.2) ≤ 1 ∧
    (generate_preset envCpuBad sCpuBad "hi" "Deep Male" "Auto" "1.7B" =
      (Except.error ⟨PyExcClass.RuntimeError,
        "Speech generation failed: channels > 65536 limit"⟩,
       (preset_attempt envCpuBad sCpuBad "hi" "Auto"
         (resolvePreset "Deep Male").1.speaker
         (resolvePreset "Deep Male").1.instruct
         (if isSmallSize "1.7B" then ModelType.custom_voice_small
          else ModelType.custom_voice)).2.1,
       (resolvePreset "Deep Male").2 ++
         (preset_attempt envCpuBad sCpuBad "hi" "Auto"
           (resolvePreset "Deep Male").1.speaker
           (resolvePreset "Deep Male").1.instruct
           (if isSmallSize "1.7B" then ModelType.custom_voice_small
            else ModelType.custom_voice)).2.2) ∧
     retryCount ((generate_preset envCpuBad sCpuBad "hi" "Deep Male" "Auto"
       "1.7B").2.2) = 0) :=
  ⟨C2_bounded_retry.1 envMpsBad sMpsBad "hi" "Deep Male" "Auto" "1.7B",
   C2_bounded_retry.2.2.2.1 envCpuBad sCpuBad "hi" "Deep Male" "Auto" "1.7B"
     "channels > 65536 limit" (by decide) (by decide) (by decide)⟩

/-- C1, counterexample: on CUDA — a non-safe, non-CPU device — a model
call failing with the exhaustion signature is NOT handled: no eviction
(the slot stays loaded), no downgrade (device stays CUDA), no retry; the
error surfaces directly.  The fallback is keyed to the MPS device only. -/
theorem C1_counterexample :
    sCudaBad.device = Device.cuda ∧
    sCudaBad.device ≠ Device.cpu ∧
    (preset_attempt envCudaBad sCudaBad "hello" "Auto"
      (resolvePreset "Deep Male").1.speaker (resolvePreset "Deep Male").1.instruct
      ModelType.custom_voice).1 = Except.error "channels > 65536 limit" ∧
    containsSub "channels > 65536 limit" exhaustionSig = true ∧
    (generate_preset envCudaBad sCudaBad "hello" "Deep Male" "Auto" "1.7B").1 =
      Except.error ⟨PyExcClass.RuntimeError,
        "Speech generation failed: channels > 65536 limit"⟩ ∧
    ((generate_preset envCudaBad sCudaBad "hello" "Deep Male" "Auto"
      "1.7B").2.1).device = Device.cuda ∧
    ((generate_preset envCudaBad sCudaBad "hello" "Deep Male" "Auto"
      "1.7B").2.1).models.get ModelType.custom_voice = some 7 ∧
    retryCount ((generate_preset envCudaBad sCudaBad "hello" "Deep Male" "Auto"
      "1.7B").2.2) = 0 := by
  decide

/-- C1, amended: for each generation operation, when the model call
fails with the resource-exhaustion signature while the current device is
the MPS unified-memory accelerator, the engine evicts the responsible
slot, downgrades permanently to CPU/fp32, and re-issues the original
request with the same arguments exactly once. -/
theorem C1_fallback_on_mps :
    (∀ (env : Backend) (s : EngineState) (text pn lang ms msg : String),
      s.device = Device.mps → isBlank text = false →
      (preset_attempt env s text lang (resolvePreset pn).1.speaker
        (resolvePreset pn).1.instruct
        (if isSmallSize ms then ModelType.custom_voice_small
         else ModelType.custom_voice)).1 = Except.error msg →
      containsSub msg exhaustionSig = true →
      (generate_preset env s text pn lang ms =
        ((generate_preset env (downgradeToSafe (unload_model
            (preset_attempt env s text lang (resolvePreset pn).1.speaker
              (resolvePreset pn).1.instruct
              (if isSmallSize ms then ModelType.custom_voice_small
               else ModelType.custom_voice)).2.1
            (if isSmallSize ms then ModelType.custom_voice_small
             else ModelType.custom_voice)).1) text pn lang ms).1,
         (generate_preset env (downgradeToSafe (unload_model
            (preset_attempt env s text lang (resolvePreset pn).1.speaker
              (resolvePreset pn).1.instruct
              (if isSmallSize ms then ModelType.custom_voice_small
               else ModelType.custom_voice)).2.1
            (if isSmallSize ms then ModelType.custom_voice_small
             else ModelType.custom_voice)).1) text pn lang ms).2.1,
         (resolvePreset pn).2 ++
           (preset_attempt env s text lang (resolvePreset pn).1.speaker
             (resolvePreset pn).1.instruct
             (if isSmallSize ms then ModelType.custom_voice_small
              else ModelType.custom_voice)).2.2 ++
           (unload_model (preset_attempt env s text lang
             (resolvePreset pn).1.speaker (resolvePreset pn).1.instruct
             (if isSmallSize ms then ModelType.custom_voice_small
              else ModelType.custom_voice)).2.1
             (if isSmallSize ms then ModelType.custom_voice_small
              else ModelType.custom_voice)).2 ++ [Event.retry] ++
           (generate_preset env (downgradeToSafe (unload_model
              (preset_attempt env s text lang (resolvePreset pn).1.speaker
                (resolvePreset pn).1.instruct
                (if isSmallSize ms then ModelType.custom_voice_small
                 else ModelType.custom_voice)).2.1
              (if isSmallSize ms then ModelType.custom_voice_small
               else ModelType.custom_voice)).1) text pn lang ms).2.2)) ∧
      ((downgradeToSafe (unload_model
          (preset_attempt env s text lang (resolvePreset pn).1.speaker
            (resolvePreset pn).1.instruct
            (if isSmallSize ms then ModelType.custom_voice_small
             else ModelType.custom_voice)).2.1
          (if isSmallSize ms then ModelType.custom_voice_small
           else ModelType.custom_voice)).1).models.get
          (if isSmallSize ms then ModelType.custom_voice_small
           else ModelType.custom_voice) = none) ∧
      retryCount ((generate_preset env (downgradeToSafe (unload_model
          (preset_attempt env s text lang (resolvePreset pn).1.speaker
            (resolvePreset pn).1.instruct
            (if isSmallSize ms then ModelType.custom_voice_small
             else ModelType.custom_voice)).2.1
          (if isSmallSize ms then ModelType.custom_voice_small
           else ModelType.custom_voice)).1) text pn lang ms).2.2) = 0 ∧
      retryCount ((generate_preset env s text pn lang ms).2.2) = 1 ∧
      ((generate_preset env s text pn lang ms).2.1).device = Device.cpu ∧
      ((generate_preset env s text pn lang ms).2.1).dtype = Dtype.float32) ∧
    (∀ (env : Backend) (s : EngineState) (text vd lang msg : String),
      s.device = Device.mps → isBlank text = false → isBlank vd = false →
      (design_attempt env s text vd lang).1 = Except.error msg →
      containsSub msg exhaustionSig = true →
      (generate_voice_design env s text vd lang =
        ((generate_voice_design env (downgradeToSafe (unload_model
            (design_attempt env s text vd lang).2.1 ModelType.voice_design).1)
            text vd lang).1,
         (generate_voice_design env (downgradeToSafe (unload_model
            (design_attempt env s text vd lang).2.1 ModelType.voice_design).1)
            text vd lang).2.1,
         (design_attempt env s text vd lang).2.2 ++
           (unload_model (design_attempt env s text vd lang).2.1
             ModelType.voice_design).2 ++ [Event.retry] ++
           (generate_voice_design env (downgradeToSafe (unload_model
              (design_attempt env s text vd lang).2.1 ModelType.voice_design).1)
              text vd lang).2.2)) ∧
      ((downgradeToSafe (unload_model (design_attempt env s text vd lang).2.1
          ModelType.voice_design).1).models.get ModelType.voice_design = none) ∧
      retryCount ((generate_voice_design env (downgradeToSafe (unload_model
          (design_attempt env s text vd lang).2.1 ModelType.voice_design).1)
          text vd lang).2.2) = 0 ∧
      retryCount ((generate_voice_design env s text vd lang).2.2) = 1 ∧
      ((generate_voice_design env s text vd lang).2.1).device = Device.cpu ∧
      ((generate_voice_design env s text vd lang).2.1).dtype = Dtype.float32) ∧
    (∀ (env : Backend) (s : EngineState) (text ra : String) (rt : Option String)
      (lang : String) (ux : Bool) (ms msg : String),
      s.device = Device.mps → isBlank text = false →
      (clone_attempt env s text ra rt lang ux
        (if isSmallSize ms then ModelType.base_small else ModelType.base)).1 =
        Except.error msg →
      containsSub msg exhaustionSig = true →
      (generate_clone env s text ra rt lang ux ms =
        ((generate_clone env (downgradeToSafe (unload_model
            (clone_attempt env s text ra rt lang ux
              (if isSmallSize ms then ModelType.base_small else ModelType.base)).2.1
            (if isSmallSize ms then ModelType.base_small else ModelType.base)).1)
            text ra rt lang ux ms).1,
         (generate_clone env (downgradeToSafe (unload_model
            (clone_attempt env s text ra rt lang ux
              (if isSmallSize ms then ModelType.base_small else ModelType.base)).2.1
            (if isSmallSize ms then ModelType.base_small else ModelType.base)).1)
            text ra rt lang ux ms).2.1,
         (clone_attempt env s text ra rt lang ux
           (if isSmallSize ms then ModelType.base_small else ModelType.base)).2.2 ++
           (unload_model (clone_attempt env s text ra rt lang ux
             (if isSmallSize ms then ModelType.base_small else ModelType.base)).2.1
             (if isSmallSize ms then ModelType.base_small else ModelType.base)).2 ++
           [Event.retry] ++
           (generate_clone env (downgradeToSafe (unload_model
              (clone_attempt env s text ra rt lang ux
                (if isSmallSize ms then ModelType.base_small
                 else ModelType.base)).2.1
              (if isSmallSize ms then ModelType.base_small
               else ModelType.base)).1) text ra rt lang ux ms).2.2)) ∧
      ((downgradeToSafe (unload_model (clone_attempt env s text ra rt lang ux
          (if isSmallSize ms then ModelType.base_small else ModelType.base)).2.1
          (if isSmallSize ms then ModelType.base_small
           else ModelType.base)).1).models.get
          (if isSmallSize ms then ModelType.base_small else ModelType.base)
        = none) ∧
      retryCount ((generate_clone env (downgradeToSafe (unload_model
          (clone_attempt env s text ra rt lang ux
            (if isSmallSize ms then ModelType.base_small else ModelType.base)).2.1
          (if isSmallSize ms then ModelType.base_small else ModelType.base)).1)
          text ra rt lang ux ms).2.2) = 0 ∧
      retryCount ((generate_clone env s text ra rt lang ux ms).2.2) = 1 ∧
      ((generate_clone env s text ra rt lang ux ms).2.1).device = Device.cpu ∧
      ((generate_clone env s text ra rt lang ux ms).2.1).dtype = Dtype.float32) := by
  refine ⟨?_, ?_, ?_⟩
  · intro env s text pn lang ms msg h ht hF hx
    rcases hA : preset_attempt env s text lang (resolvePreset pn).1.speaker
        (resolvePreset pn).1.instruct
        (if isSmallSize ms then ModelType.custom_voice_small
         else ModelType.custom_voice) with ⟨r, s1, tr1⟩
    rw [hA] at hF
    simp only [] at hF
    subst hF
    have heq := generate_preset_fallback env s text pn lang ms msg s1 tr1 h ht hA hx
    have hin := generate_preset_fuel_nomps_snd env 1
      (downgradeToSafe (unload_model s1
        (if isSmallSize ms then ModelType.custom_voice_small
         else ModelType.custom_voice)).1) text pn lang ms (by simp)
    have hres := resolvePreset_snd pn s.device s.dtype
    have hS := (preset_attempt_snd env s text lang (resolvePreset pn).1.speaker
        (resolvePreset pn).1.instruct
        (if isSmallSize ms then ModelType.custom_voice_small
         else ModelType.custom_voice)).2.2.2.2.2.1
    rw [hA] at hS
    simp only [] at hS
    refine ⟨by simpa using heq, by simp [unload_clears], ?_, ?_, ?_, ?_⟩
    · rw [generate_preset_def2]
      exact hin.2.2.2.2.2
    · rw [heq]
      simp only [generate_preset_def2] at hin ⊢
      simp [retryCount_append, retryCount_retry_cons, retryCount_one_retry,
        hres.1, hS, hin.2.2.2.2.2]
    · rw [heq]
      simp only [generate_preset_def2] at hin ⊢
      simpa using hin.1
    · rw [heq]
      simp only [generate_preset_def2] at hin ⊢
      simpa using hin.2.1
  · intro env s text vd lang msg h ht hv hF hx
    rcases hA : design_attempt env s text vd lang with ⟨r, s1, tr1⟩
    rw [hA] at hF
    simp only [] at hF
    subst hF
    have heq := generate_voice_design_fallback env s text vd lang msg s1 tr1 h ht hv hA hx
    have hin := generate_voice_design_fuel_nomps_snd env 1
      (downgradeToSafe (unload_model s1 ModelType.voice_design).1) text vd lang
      (by simp)
    have hS := (design_attempt_snd env s text vd lang).2.2.2.2.2.1
    rw [hA] at hS
    simp only [] at hS
    refine ⟨by simpa using heq, by simp [unload_clears], ?_, ?_, ?_, ?_⟩
    · rw [generate_voice_design_def2]
      exact hin.2.2.2.2.2
    · rw [heq]
      simp only [generate_voice_design_def2] at hin ⊢
      simp [retryCount_append, retryCount_retry_cons, retryCount_one_retry, hS,
        hin.2.2.2.2.2]
    · rw [heq]
      simp only [generate_voice_design_def2] at hin ⊢
      simpa using hin.1
    · rw [heq]
      simp only [generate_voice_design_def2] at hin ⊢
      simpa using hin.2.1
  · intro env s text ra rt lang ux ms msg h ht hF hx
    rcases hA : clone_attempt env s text ra rt lang ux
        (if isSmallSize ms then ModelType.base_small else ModelType.base)
      with ⟨r, s1, tr1⟩
    rw [hA] at hF
    simp only [] at hF
    subst hF
    have heq := generate_clone_fallback env s text ra rt lang ux ms msg s1 tr1 h ht hA hx
    have hin := generate_clone_fuel_nomps_snd env 1
      (downgradeToSafe (unload_model s1
        (if isSmallSize ms then ModelType.base_small else ModelType.base)).1)
      text ra rt lang ux ms (by simp)
    have hS := (clone_attempt_snd env s text ra rt lang ux
        (if isSmallSize ms then ModelType.base_small else ModelType.base)).2.2.2.2.2.1
    rw [hA] at hS
    simp only [] at hS
    refine ⟨by simpa using heq, by simp [unload_clears], ?_, ?_, ?_, ?_⟩
    · rw [generate_clone_def2]
      exact hin.2.2.2.2.2
    · rw [heq]
      simp only [generate_clone_def2] at hin ⊢
      simp [retryCount_append, retryCount_retry_cons, retryCount_one_retry, hS,
        hin.2.2.2.2.2]
    · rw [heq]
      simp only [generate_clone_def2] at hin ⊢
      simpa using hin.1
    · rw [heq]
      simp only [generate_clone_def2] at hin ⊢
      simpa using hin.2.1

theorem C1_fallback_on_mps_witness :
    retryCount ((generate_preset envMpsBad sMpsBad "hi" "Deep Male" "Auto"
      "1.7B").2.2) = 1 ∧
    ((generate_preset envMpsBad sMpsBad "hi" "Deep Male" "Auto" "1.7B").2.1).device
      = Device.cpu ∧
    retryCount ((generate_voice_design envMpsBad sMpsBad "hi" "a voice" "Auto").2.2)
      = 1 ∧
    retryCount ((generate_clone envMpsBad sMpsBad "hi" "ref.wav" none "Auto" false
      "1.7B").2.2) = 1 :=
  ⟨(C1_fallback_on_mps.1 envMpsBad sMpsBad "hi" "Deep Male" "Auto" "1.7B"
      "channels > 65536 limit" (by decide) (by decide) (by decide)
      (by decide)).2.2.2.1,
   (C1_fallback_on_mps.1 envMpsBad sMpsBad "hi" "Deep Male" "Auto" "1.7B"
      "channels > 65536 limit" (by decide) (by decide) (by decide)
      (by decide)).2.2.2.2.1,
   (C1_fallback_on_mps.2.1 envMpsBad sMpsBad "hi" "a voice" "Auto"
      "channels > 65536 limit" (by decide) (by decide) (by decide) (by decide)
      (by decide)).2.2.2.1,
   (C1_fallback_on_mps.2.2 envMpsBad sMpsBad "hi" "ref.wav" none "Auto" false
      "1.7B" "channels > 65536 limit" (by decide) (by decide) (by decide)
      (by decide)).2.2.2.1⟩

end VoiceForge
